import Mathlib

/-
Verification of the report-rendering core of the ARQV2 repository
(src/static/script.js): the ten section renderers, the report composer
`generateResultsHTML`, the avatar tab controller `showAvatarTab`, and the
plain-text exporter `generateComprehensiveReport`.

The JavaScript is shallowly embedded: JSON-like values become `JsVal`;
template literals become string concatenation; fallible operations
(property access on `undefined`/`null`, calling `.map`/`.join`/`.toLowerCase`
on a non-receiver) become `Except String` computations, mirroring the thrown
`TypeError`s; `new Date().toLocaleString()` becomes an explicit `now`
parameter of the exporter.
-/

set_option maxRecDepth 100000

namespace ARQV2

/-- A JavaScript/JSON value as the renderers see it: the analysis record is
parsed JSON, and absent keys read as `undefined`. Numbers are modelled as
integers (every numeric field the code touches, such as `plano_acao[].passo`,
is integral). -/
inductive JsVal where
  | undefined : JsVal
  | null : JsVal
  | str : String → JsVal
  | num : Int → JsVal
  | arr : List JsVal → JsVal
  | obj : List (String × JsVal) → JsVal

/-- JavaScript truthiness (`if (!x)`, `x || y`): `undefined`, `null`, `""`
and `0` are falsy; every array and object is truthy. -/
def truthy : JsVal → Bool
  | .undefined => false
  | .null => false
  | .str s => !(s == "")
  | .num n => !(n == 0)
  | .arr _ => true
  | .obj _ => true

/-- `a || b` on values, as used in the templates (`x || 'N/A'`). -/
def jsOr (a b : JsVal) : JsVal := if truthy a then a else b

/-- First-match lookup of a key in an object's field list (JS object keys are
unique, so first-match is the JS semantics). -/
def propLookup : List (String × JsVal) → String → JsVal
  | [], _ => .undefined
  | (k, v) :: rest, key => if k == key then v else propLookup rest key

/-- Optional-chained property access `x?.k`, and also plain `x.k` on a
receiver already known to be truthy: `undefined`/`null` short-circuit to
`undefined`, objects look the key up, and strings/numbers/arrays (which carry
none of the record's keys) read as `undefined`. -/
def getPropOpt : JsVal → String → JsVal
  | .obj fs, k => propLookup fs k
  | _, _ => .undefined

/-- Plain property access `x.k` with no optional chaining: throws a
`TypeError` when the receiver is `undefined` or `null`. -/
def getPropStrict (v : JsVal) (k : String) : Except String JsVal :=
  match v with
  | .undefined => .error ("TypeError: cannot read properties of undefined (reading " ++ k ++ ")")
  | .null => .error ("TypeError: cannot read properties of null (reading " ++ k ++ ")")
  | w => .ok (getPropOpt w k)

/-- `Array.prototype.join`: the separator goes between elements, and
`undefined`/`null` elements stringify to the empty string. -/
def strJoinSep : String → List String → String
  | _, [] => ""
  | _, [s] => s
  | sep, s :: t :: rest => s ++ sep ++ strJoinSep sep (t :: rest)

/-- Template-literal stringification (`${v}`) of the values the §3 data model
and the claims exercise. JavaScript stringifies a nested array by joining its
elements with `","`; the embedding flattens one level (no claim and no
well-typed record ever stringifies a nested array). -/
def jsToString : JsVal → String
  | .undefined => "undefined"
  | .null => "null"
  | .str s => s
  | .num n => toString n
  | .obj _ => "[object Object]"
  | .arr xs => strJoinSep "," (xs.map fun x =>
      match x with
      | .undefined => ""
      | .null => ""
      | .str s => s
      | .num n => toString n
      | .obj _ => "[object Object]"
      | .arr _ => "")

/-- Stringification of one element inside `Array.prototype.join`:
`undefined` and `null` become the empty string. -/
def jsJoinStr : JsVal → String
  | .undefined => ""
  | .null => ""
  | v => jsToString v

/-- `xs.join(sep)` on a known array value. -/
def jsJoinArr (v : JsVal) (sep : String) : String :=
  match v with
  | .arr xs => strJoinSep sep (xs.map jsJoinStr)
  | _ => ""

/-- Optional-chained `xs?.join(sep)`: `undefined`/`null` short-circuit, an
array joins, and any other receiver throws (`.join` is not a function on
strings or numbers). -/
def jsJoinOpt (v : JsVal) (sep : String) : Except String JsVal :=
  match v with
  | .undefined => .ok .undefined
  | .null => .ok .undefined
  | .arr xs => .ok (.str (strJoinSep sep (xs.map jsJoinStr)))
  | _ => .error "TypeError: join is not a function"

/-- Effectful map over a list, left to right, stopping at the first error —
the evaluation order of `Array.prototype.map` with a throwing callback. -/
def mapME : List JsVal → (JsVal → Except String String) → Except String (List String)
  | [], _ => .ok []
  | x :: xs, f => do
      let s ← f x
      let rest ← mapME xs f
      .ok (s :: rest)

/-- Effectful map with the element index, as in `.map((x, index) => ...)`. -/
def mapMEIdx : List JsVal → Nat → (JsVal → Nat → Except String String) → Except String (List String)
  | [], _, _ => .ok []
  | x :: xs, i, f => do
      let s ← f x i
      let rest ← mapMEIdx xs (i + 1) f
      .ok (s :: rest)

/-- Effectful map over `Object.entries` pairs. -/
def mapMEPairs : List (String × JsVal) → (String → JsVal → Except String String) → Except String (List String)
  | [], _ => .ok []
  | (k, v) :: rest, f => do
      let s ← f k v
      let tail ← mapMEPairs rest f
      .ok (s :: tail)

/-- Optional-chained `xs?.map(f).join(sep)`: `undefined`/`null` short-circuit
the whole chain to `undefined`, an array maps then joins (the mapped results
are strings, so the join is a plain intercalation), and any other receiver
throws (`.map` is not a function). -/
def jsMapJoinOpt (v : JsVal) (sep : String) (f : JsVal → Except String String) : Except String JsVal :=
  match v with
  | .undefined => .ok .undefined
  | .null => .ok .undefined
  | .arr xs => do
      let ss ← mapME xs f
      .ok (.str (strJoinSep sep ss))
  | _ => .error "TypeError: map is not a function"

/-- Optional-chained `xs?.map((x, index) => ...).join(sep)`. -/
def jsMapIdxJoinOpt (v : JsVal) (sep : String) (f : JsVal → Nat → Except String String) :
    Except String JsVal :=
  match v with
  | .undefined => .ok .undefined
  | .null => .ok .undefined
  | .arr xs => do
      let ss ← mapMEIdx xs 0 f
      .ok (.str (strJoinSep sep ss))
  | _ => .error "TypeError: map is not a function"

/-- `Object.entries`: an object yields its fields in insertion order; an array
or string yields index/element pairs; primitives yield nothing. -/
def jsEntries : JsVal → List (String × JsVal)
  | .obj fs => fs
  | .arr xs => (xs.enum.map fun p => (toString p.1, p.2))
  | .str s => (s.data.enum.map fun p => (toString p.1, .str (String.singleton p.2)))
  | _ => []

/-- `Array.isArray`. -/
def isJsArray : JsVal → Bool
  | .arr _ => true
  | _ => false

/-- `String.prototype.toLowerCase`, character by character. -/
def jsLower (s : String) : String := ⟨s.data.map Char.toLower⟩

/-- Optional-chained `x?.toLowerCase()`: `undefined`/`null` short-circuit, a
string lowercases, anything else throws. -/
def jsToLowerOpt : JsVal → Except String JsVal
  | .undefined => .ok .undefined
  | .null => .ok .undefined
  | .str s => .ok (.str (jsLower s))
  | _ => .error "TypeError: toLowerCase is not a function"

/-- `s.charAt(0).toUpperCase() + s.slice(1)`, the display capitalization the
mapping renderers apply to platform/channel keys. -/
def jsCapitalize (s : String) : String :=
  match s.data with
  | [] => ""
  | c :: cs => ⟨c.toUpper :: cs⟩

/-- Source: `generateEscopoSection` (script.js 237-275). Guard
`if (!escopo) return ''`, then one template with four interpolations; the
three scalar fields are interpolated with no fallback, the `subnichos` list
maps to `<li>` items with an `|| '<li>Não especificado</li>'` fallback. -/
def generateEscopoSection (escopo : JsVal) : Except String String :=
  if !(truthy escopo) then .ok "" else do
    let subItems ← jsMapJoinOpt (getPropOpt escopo "subnichos") ""
      (fun sub => .ok ("<li>" ++ jsToString sub ++ "</li>"))
    .ok ("\n        <div class=\"neo-enhanced-card result-card\">\n            <div class=\"neo-card-header\">\n                <div class=\"neo-card-icon\">\n                    <i class=\"fas fa-bullseye\"></i>\n                </div>\n                <h3 class=\"neo-card-title\">Definição do Escopo</h3>\n            </div>\n            <div class=\"neo-card-content\">\n                <div class=\"escopo-content\">\n                    <div class=\"detail-item\">\n                        <strong>Nicho Principal:</strong>\n                        <p>"
      ++ jsToString (getPropOpt escopo "nicho_principal")
      ++ "</p>\n                    </div>\n                    \n                    <div class=\"detail-item\">\n                        <strong>Subnichos Identificados:</strong>\n                        <ul>\n                            "
      ++ jsToString (jsOr subItems (.str "<li>Não especificado</li>"))
      ++ "\n                        </ul>\n                    </div>\n                    \n                    <div class=\"detail-item\">\n                        <strong>Produto Ideal:</strong>\n                        <p>"
      ++ jsToString (getPropOpt escopo "produto_ideal")
      ++ "</p>\n                    </div>\n                    \n                    <div class=\"detail-item\">\n                        <strong>Proposta de Valor Única:</strong>\n                        <p>"
      ++ jsToString (getPropOpt escopo "proposta_valor")
      ++ "</p>\n                    </div>\n                </div>\n            </div>\n        </div>\n    ")

/-- Source: `generateAvatarSection` (script.js 277-393). Guard
`if (!avatar) return ''`; three tab panes whose markup flags the demografia
content block and button as `active`; every scalar and every list field is
read through optional chains with a placeholder fallback. -/
def generateAvatarSection (avatar : JsVal) : Except String String :=
  if !(truthy avatar) then .ok "" else do
    let profItems ← jsMapJoinOpt (getPropOpt (getPropOpt avatar "demografia") "profissoes") ""
      (fun prof => .ok ("<li>" ++ jsToString prof ++ "</li>"))
    let valorItems ← jsMapJoinOpt (getPropOpt (getPropOpt avatar "psicografia") "valores") ""
      (fun valor => .ok ("<li>" ++ jsToString valor ++ "</li>"))
    let aspItems ← jsMapJoinOpt (getPropOpt (getPropOpt avatar "psicografia") "aspiracoes") ""
      (fun asp => .ok ("<li>" ++ jsToString asp ++ "</li>"))
    let medoItems ← jsMapJoinOpt (getPropOpt (getPropOpt avatar "psicografia") "medos") ""
      (fun medo => .ok ("<li>" ++ jsToString medo ++ "</li>"))
    let frustItems ← jsMapJoinOpt (getPropOpt (getPropOpt avatar "psicografia") "frustracoes") ""
      (fun frust => .ok ("<li>" ++ jsToString frust ++ "</li>"))
    let platItems ← jsMapJoinOpt (getPropOpt (getPropOpt avatar "comportamento_digital") "plataformas") ""
      (fun plat => .ok ("<li>" ++ jsToString plat ++ "</li>"))
    let contItems ← jsMapJoinOpt (getPropOpt (getPropOpt avatar "comportamento_digital") "conteudo_preferido") ""
      (fun cont => .ok ("<li>" ++ jsToString cont ++ "</li>"))
    let infItems ← jsMapJoinOpt (getPropOpt (getPropOpt avatar "comportamento_digital") "influenciadores") ""
      (fun inf => .ok ("<li>" ++ jsToString inf ++ "</li>"))
    .ok ("\n        <div class=\"neo-enhanced-card result-card\">\n            <div class=\"neo-card-header\">\n                <div class=\"neo-card-icon\">\n                    <i class=\"fas fa-user-circle\"></i>\n                </div>\n                <h3 class=\"neo-card-title\">Análise Completa do Avatar</h3>\n            </div>\n            <div class=\"neo-card-content\">\n                <div class=\"avatar-tabs\">\n                    <button class=\"tab-btn active\" onclick=\"showAvatarTab(\x27demografia\x27)\">Demografia</button>\n                    <button class=\"tab-btn\" onclick=\"showAvatarTab(\x27psicografia\x27)\">Psicografia</button>\n                    <button class=\"tab-btn\" onclick=\"showAvatarTab(\x27comportamento\x27)\">Comportamento Digital</button>\n                </div>\n                \n                <div class=\"avatar-content\">\n                    <div id=\"demografia-content\" class=\"tab-content active\">\n                        <h4>Perfil Demográfico</h4>\n                        <div class=\"avatar-details\">\n                            <div class=\"detail-item\">\n                                <strong>Faixa Etária:</strong>\n                                <p>"
      ++ jsToString (jsOr (getPropOpt (getPropOpt avatar "demografia") "faixa_etaria") (.str "Não especificado"))
      ++ "</p>\n                            </div>\n                            <div class=\"detail-item\">\n                                <strong>Gênero:</strong>\n                                <p>"
      ++ jsToString (jsOr (getPropOpt (getPropOpt avatar "demografia") "genero") (.str "Não especificado"))
      ++ "</p>\n                            </div>\n                            <div class=\"detail-item\">\n                                <strong>Localização:</strong>\n                                <p>"
      ++ jsToString (jsOr (getPropOpt (getPropOpt avatar "demografia") "localizacao") (.str "Não especificado"))
      ++ "</p>\n                            </div>\n                            <div class=\"detail-item\">\n                                <strong>Renda:</strong>\n                                <p>"
      ++ jsToString (jsOr (getPropOpt (getPropOpt avatar "demografia") "renda") (.str "Não especificado"))
      ++ "</p>\n                            </div>\n                            <div class=\"detail-item\">\n                                <strong>Escolaridade:</strong>\n                                <p>"
      ++ jsToString (jsOr (getPropOpt (getPropOpt avatar "demografia") "escolaridade") (.str "Não especificado"))
      ++ "</p>\n                            </div>\n                            <div class=\"detail-item\">\n                                <strong>Profissões Principais:</strong>\n                                <ul>\n                                    "
      ++ jsToString (jsOr profItems (.str "<li>Não especificado</li>"))
      ++ "\n                                </ul>\n                            </div>\n                        </div>\n                    </div>\n                    \n                    <div id=\"psicografia-content\" class=\"tab-content\">\n                        <h4>Perfil Psicográfico</h4>\n                        <div class=\"avatar-details\">\n                            <div class=\"detail-item\">\n                                <strong>Valores Principais:</strong>\n                                <ul>\n                                    "
      ++ jsToString (jsOr valorItems (.str "<li>Não especificado</li>"))
      ++ "\n                                </ul>\n                            </div>\n                            <div class=\"detail-item\">\n                                <strong>Estilo de Vida:</strong>\n                                <p>"
      ++ jsToString (jsOr (getPropOpt (getPropOpt avatar "psicografia") "estilo_vida") (.str "Não especificado"))
      ++ "</p>\n                            </div>\n                            <div class=\"detail-item\">\n                                <strong>Aspirações:</strong>\n                                <ul>\n                                    "
      ++ jsToString (jsOr aspItems (.str "<li>Não especificado</li>"))
      ++ "\n                                </ul>\n                            </div>\n                            <div class=\"detail-item\">\n                                <strong>Medos Principais:</strong>\n                                <ul>\n                                    "
      ++ jsToString (jsOr medoItems (.str "<li>Não especificado</li>"))
      ++ "\n                                </ul>\n                            </div>\n                            <div class=\"detail-item\">\n                                <strong>Frustrações:</strong>\n                                <ul>\n                                    "
      ++ jsToString (jsOr frustItems (.str "<li>Não especificado</li>"))
      ++ "\n                                </ul>\n                            </div>\n                        </div>\n                    </div>\n                    \n                    <div id=\"comportamento-content\" class=\"tab-content\">\n                        <h4>Comportamento Digital</h4>\n                        <div class=\"avatar-details\">\n                            <div class=\"detail-item\">\n                                <strong>Plataformas Principais:</strong>\n                                <ul>\n                                    "
      ++ jsToString (jsOr platItems (.str "<li>Não especificado</li>"))
      ++ "\n                                </ul>\n                            </div>\n                            <div class=\"detail-item\">\n                                <strong>Horários de Pico:</strong>\n                                <p>"
      ++ jsToString (jsOr (getPropOpt (getPropOpt avatar "comportamento_digital") "horarios_pico") (.str "Não especificado"))
      ++ "</p>\n                            </div>\n                            <div class=\"detail-item\">\n                                <strong>Conteúdo Preferido:</strong>\n                                <ul>\n                                    "
      ++ jsToString (jsOr contItems (.str "<li>Não especificado</li>"))
      ++ "\n                                </ul>\n                            </div>\n                            <div class=\"detail-item\">\n                                <strong>Influenciadores que Seguem:</strong>\n                                <ul>\n                                    "
      ++ jsToString (jsOr infItems (.str "<li>Não especificado</li>"))
      ++ "\n                                </ul>\n                            </div>\n                        </div>\n                    </div>\n                </div>\n            </div>\n        </div>\n    ")

/-- Source: `generateDoresDesejos` (script.js 395-446). The pain items
interpolate `descricao`/`impacto`/`urgencia` with no fallback (plain property
accesses on each element); the scalar fields below them carry
`|| 'Não especificado'` fallbacks. -/
def generateDoresDesejos (dores_desejos : JsVal) : Except String String :=
  if !(truthy dores_desejos) then .ok "" else do
    let dorItems ← jsMapIdxJoinOpt (getPropOpt dores_desejos "principais_dores") ""
      (fun dor index => do
        let descricao ← getPropStrict dor "descricao"
        let impacto ← getPropStrict dor "impacto"
        let urgencia ← getPropStrict dor "urgencia"
        let urgLower ← jsToLowerOpt urgencia
        .ok ("\n                                <div class=\"dor-item\">\n                                    <h5>Dor "
          ++ toString (index + 1) ++ ": " ++ jsToString descricao
          ++ "</h5>\n                                    <p><strong>Impacto:</strong> "
          ++ jsToString impacto
          ++ "</p>\n                                    <p><strong>Urgência:</strong> <span class=\"urgencia "
          ++ jsToString urgLower ++ "\">" ++ jsToString urgencia
          ++ "</span></p>\n                                </div>\n                            "))
    let obstItems ← jsMapJoinOpt (getPropOpt dores_desejos "obstaculos") ""
      (fun obs => .ok ("<li>" ++ jsToString obs ++ "</li>"))
    .ok ("\n        <div class=\"neo-enhanced-card result-card\">\n            <div class=\"neo-card-header\">\n                <div class=\"neo-card-icon\">\n                    <i class=\"fas fa-heart-broken\"></i>\n                </div>\n                <h3 class=\"neo-card-title\">Mapeamento de Dores e Desejos</h3>\n            </div>\n            <div class=\"neo-card-content\">\n                <div class=\"dores-content\">\n                    <div class=\"detail-item\">\n                        <strong>Principais Dores Identificadas:</strong>\n                        <div class=\"dores-list\">\n                            "
      ++ jsToString (jsOr dorItems (.str "<p>Não especificado</p>"))
      ++ "\n                        </div>\n                    </div>\n                    \n                    <div class=\"detail-item\">\n                        <strong>Estado Atual:</strong>\n                        <p>"
      ++ jsToString (jsOr (getPropOpt dores_desejos "estado_atual") (.str "Não especificado"))
      ++ "</p>\n                    </div>\n                    \n                    <div class=\"detail-item\">\n                        <strong>Estado Desejado:</strong>\n                        <p>"
      ++ jsToString (jsOr (getPropOpt dores_desejos "estado_desejado") (.str "Não especificado"))
      ++ "</p>\n                    </div>\n                    \n                    <div class=\"detail-item\">\n                        <strong>Obstáculos Percebidos:</strong>\n                        <ul>\n                            "
      ++ jsToString (jsOr obstItems (.str "<li>Não especificado</li>"))
      ++ "\n                        </ul>\n                    </div>\n                    \n                    <div class=\"detail-item\">\n                        <strong>Sonho Secreto:</strong>\n                        <p class=\"sonho-secreto\">"
      ++ jsToString (jsOr (getPropOpt dores_desejos "sonho_secreto") (.str "Não especificado"))
      ++ "</p>\n                    </div>\n                </div>\n            </div>\n        </div>\n    ")

/-- Source: `generateConcorrenciaSection` (script.js 448-498). Each direct
competitor's `forcas`/`fraquezas` is joined with `', '` exactly when
`Array.isArray` holds and displayed verbatim otherwise. -/
def generateConcorrenciaSection (concorrencia : JsVal) : Except String String :=
  if !(truthy concorrencia) then .ok "" else do
    let diretosItems ← jsMapJoinOpt (getPropOpt concorrencia "diretos") ""
      (fun conc => do
        let nome ← getPropStrict conc "nome"
        let preco ← getPropStrict conc "preco"
        let usp ← getPropStrict conc "usp"
        let forcas ← getPropStrict conc "forcas"
        let fraquezas ← getPropStrict conc "fraquezas"
        .ok ("\n                                <div class=\"concorrente-item\">\n                                    <h5>"
          ++ jsToString nome
          ++ "</h5>\n                                    <p><strong>Preço:</strong> "
          ++ jsToString preco
          ++ "</p>\n                                    <p><strong>USP:</strong> "
          ++ jsToString usp
          ++ "</p>\n                                    <p><strong>Forças:</strong> "
          ++ (if isJsArray forcas then jsJoinArr forcas ", " else jsToString forcas)
          ++ "</p>\n                                    <p><strong>Fraquezas:</strong> "
          ++ (if isJsArray fraquezas then jsJoinArr fraquezas ", " else jsToString fraquezas)
          ++ "</p>\n                                </div>\n                            "))
    let indiretosItems ← jsMapJoinOpt (getPropOpt concorrencia "indiretos") ""
      (fun ind => do
        let nome ← getPropStrict ind "nome"
        let tipo ← getPropStrict ind "tipo"
        .ok ("\n                                <div class=\"indireto-item\">\n                                    <h5>"
          ++ jsToString nome
          ++ "</h5>\n                                    <p><strong>Tipo:</strong> "
          ++ jsToString tipo
          ++ "</p>\n                                </div>\n                            "))
    let gapsItems ← jsMapJoinOpt (getPropOpt concorrencia "gaps_mercado") ""
      (fun gap => .ok ("<li>" ++ jsToString gap ++ "</li>"))
    .ok ("\n        <div class=\"neo-enhanced-card result-card\">\n            <div class=\"neo-card-header\">\n                <div class=\"neo-card-icon\">\n                    <i class=\"fas fa-chess\"></i>\n                </div>\n                <h3 class=\"neo-card-title\">Análise da Concorrência</h3>\n            </div>\n            <div class=\"neo-card-content\">\n                <div class=\"concorrencia-content\">\n                    <div class=\"detail-item\">\n                        <strong>Concorrentes Diretos:</strong>\n                        <div class=\"concorrentes-list\">\n                            "
      ++ jsToString (jsOr diretosItems (.str "<p>Não especificado</p>"))
      ++ "\n                        </div>\n                    </div>\n                    \n                    <div class=\"detail-item\">\n                        <strong>Concorrentes Indiretos:</strong>\n                        <div class=\"indiretos-list\">\n                            "
      ++ jsToString (jsOr indiretosItems (.str "<p>Não especificado</p>"))
      ++ "\n                        </div>\n                    </div>\n                    \n                    <div class=\"detail-item\">\n                        <strong>Gaps de Mercado Identificados:</strong>\n                        <ul>\n                            "
      ++ jsToString (jsOr gapsItems (.str "<li>Não especificado</li>"))
      ++ "\n                        </ul>\n                    </div>\n                </div>\n            </div>\n        </div>\n    ")

/-- Source: `generateMercadoSection` (script.js 500-561). -/
def generateMercadoSection (mercado : JsVal) : Except String String :=
  if !(truthy mercado) then .ok "" else do
    let tendAltaItems ← jsMapJoinOpt (getPropOpt mercado "tendencias_alta") ""
      (fun tend => .ok ("<li class=\"trend-up\">" ++ jsToString tend ++ "</li>"))
    let tendBaixaItems ← jsMapJoinOpt (getPropOpt mercado "tendencias_baixa") ""
      (fun tend => .ok ("<li class=\"trend-down\">" ++ jsToString tend ++ "</li>"))
    let melhores ← jsJoinOpt (getPropOpt (getPropOpt mercado "sazonalidade") "melhores_meses") ", "
    let piores ← jsJoinOpt (getPropOpt (getPropOpt mercado "sazonalidade") "piores_meses") ", "
    .ok ("\n        <div class=\"neo-enhanced-card result-card\">\n            <div class=\"neo-card-header\">\n                <div class=\"neo-card-icon\">\n                    <i class=\"fas fa-chart-pie\"></i>\n                </div>\n                <h3 class=\"neo-card-title\">Análise de Mercado</h3>\n            </div>\n            <div class=\"neo-card-content\">\n                <div class=\"mercado-content\">\n                    <div class=\"tam-sam-som\">\n                        <div class=\"metric-item\">\n                            <div class=\"metric-value\">"
      ++ jsToString (jsOr (getPropOpt mercado "tam") (.str "N/A"))
      ++ "</div>\n                            <div class=\"metric-label\">TAM (Total Addressable Market)</div>\n                        </div>\n                        <div class=\"metric-item\">\n                            <div class=\"metric-value\">"
      ++ jsToString (jsOr (getPropOpt mercado "sam") (.str "N/A"))
      ++ "</div>\n                            <div class=\"metric-label\">SAM (Serviceable Addressable Market)</div>\n                        </div>\n                        <div class=\"metric-item\">\n                            <div class=\"metric-value\">"
      ++ jsToString (jsOr (getPropOpt mercado "som") (.str "N/A"))
      ++ "</div>\n                            <div class=\"metric-label\">SOM (Serviceable Obtainable Market)</div>\n                        </div>\n                    </div>\n                    \n                    <div class=\"detail-item\">\n                        <strong>Volume de Busca Mensal:</strong>\n                        <p>"
      ++ jsToString (jsOr (getPropOpt mercado "volume_busca") (.str "Não especificado"))
      ++ "</p>\n                    </div>\n                    \n                    <div class=\"detail-item\">\n                        <strong>Tendências em Alta:</strong>\n                        <ul>\n                            "
      ++ jsToString (jsOr tendAltaItems (.str "<li>Não especificado</li>"))
      ++ "\n                        </ul>\n                    </div>\n                    \n                    <div class=\"detail-item\">\n                        <strong>Tendências em Baixa:</strong>\n                        <ul>\n                            "
      ++ jsToString (jsOr tendBaixaItems (.str "<li>Não especificado</li>"))
      ++ "\n                        </ul>\n                    </div>\n                    \n                    <div class=\"sazonalidade\">\n                        <div class=\"detail-item\">\n                            <strong>Melhores Meses:</strong>\n                            <p class=\"meses-bons\">"
      ++ jsToString (jsOr melhores (.str "Não especificado"))
      ++ "</p>\n                        </div>\n                        <div class=\"detail-item\">\n                            <strong>Piores Meses:</strong>\n                            <p class=\"meses-ruins\">"
      ++ jsToString (jsOr piores (.str "Não especificado"))
      ++ "</p>\n                        </div>\n                    </div>\n                </div>\n            </div>\n        </div>\n    ")

/-- Source: `generatePalavrasChaveSection` (script.js 563-613). The
`custos_plataforma` mapping is iterated with `Object.entries(x || {})` and
joined with no fallback, so an absent mapping renders as nothing. -/
def generatePalavrasChaveSection (palavras_chave : JsVal) : Except String String :=
  if !(truthy palavras_chave) then .ok "" else do
    let principaisItems ← jsMapJoinOpt (getPropOpt palavras_chave "principais") ""
      (fun kw => do
        let termo ← getPropStrict kw "termo"
        let volume ← getPropStrict kw "volume"
        let cpc ← getPropStrict kw "cpc"
        let dificuldade ← getPropStrict kw "dificuldade"
        let intencao ← getPropStrict kw "intencao"
        .ok ("\n                                <div class=\"keyword-item\">\n                                    <h5>"
          ++ jsToString termo
          ++ "</h5>\n                                    <div class=\"keyword-metrics\">\n                                        <span>Volume: "
          ++ jsToString volume
          ++ "</span>\n                                        <span>CPC: "
          ++ jsToString cpc
          ++ "</span>\n                                        <span>Dificuldade: "
          ++ jsToString dificuldade
          ++ "</span>\n                                        <span>Intenção: "
          ++ jsToString intencao
          ++ "</span>\n                                    </div>\n                                </div>\n                            "))
    let custosItems ← mapMEPairs (jsEntries (jsOr (getPropOpt palavras_chave "custos_plataforma") (.obj [])))
      (fun platform costs => do
        let cpm ← getPropStrict costs "cpm"
        let cpc ← getPropStrict costs "cpc"
        let cpl ← getPropStrict costs "cpl"
        let conversao ← getPropStrict costs "conversao"
        .ok ("\n                                <div class=\"platform-item\">\n                                    <h5>"
          ++ jsCapitalize platform
          ++ "</h5>\n                                    <div class=\"cost-metrics\">\n                                        <span>CPM: "
          ++ jsToString cpm
          ++ "</span>\n                                        <span>CPC: "
          ++ jsToString cpc
          ++ "</span>\n                                        <span>CPL: "
          ++ jsToString cpl
          ++ "</span>\n                                        <span>Conversão: "
          ++ jsToString conversao
          ++ "</span>\n                                    </div>\n                                </div>\n                            "))
    .ok ("\n        <div class=\"neo-enhanced-card result-card\">\n            <div class=\"neo-card-header\">\n                <div class=\"neo-card-icon\">\n                    <i class=\"fas fa-search\"></i>\n                </div>\n                <h3 class=\"neo-card-title\">Análise de Palavras-Chave</h3>\n            </div>\n            <div class=\"neo-card-content\">\n                <div class=\"keywords-content\">\n                    <div class=\"detail-item\">\n                        <strong>Principais Palavras-Chave:</strong>\n                        <div class=\"keywords-list\">\n                            "
      ++ jsToString (jsOr principaisItems (.str "<p>Não especificado</p>"))
      ++ "\n                        </div>\n                    </div>\n                    \n                    <div class=\"detail-item\">\n                        <strong>Custos por Plataforma:</strong>\n                        <div class=\"platform-costs\">\n                            "
      ++ strJoinSep "" custosItems
      ++ "\n                        </div>\n                    </div>\n                </div>\n            </div>\n        </div>\n    ")

/-- Source: `generateMetricasSection` (script.js 615-670). `roi_canais` is
iterated with `Object.entries(x || {})`, values interpolated directly. -/
def generateMetricasSection (metricas : JsVal) : Except String String :=
  if !(truthy metricas) then .ok "" else do
    let funilItems ← jsMapIdxJoinOpt (getPropOpt metricas "funil_conversao") ""
      (fun step index =>
        .ok ("\n                                <div class=\"funil-step\">\n                                    <span class=\"step-number\">"
          ++ toString (index + 1)
          ++ "</span>\n                                    <span class=\"step-text\">"
          ++ jsToString step
          ++ "</span>\n                                </div>\n                            "))
    let roiItems ← mapMEPairs (jsEntries (jsOr (getPropOpt metricas "roi_canais") (.obj [])))
      (fun channel roi =>
        .ok ("\n                                <div class=\"roi-item\">\n                                    <span class=\"channel-name\">"
          ++ jsCapitalize channel
          ++ "</span>\n                                    <span class=\"roi-value\">"
          ++ jsToString roi
          ++ "</span>\n                                </div>\n                            "))
    .ok ("\n        <div class=\"neo-enhanced-card result-card\">\n            <div class=\"neo-card-header\">\n                <div class=\"neo-card-icon\">\n                    <i class=\"fas fa-chart-line\"></i>\n                </div>\n                <h3 class=\"neo-card-title\">Métricas de Performance</h3>\n            </div>\n            <div class=\"neo-card-content\">\n                <div class=\"metricas-content\">\n                    <div class=\"metrics-grid\">\n                        <div class=\"metric-item\">\n                            <div class=\"metric-value\">"
      ++ jsToString (jsOr (getPropOpt metricas "cac_medio") (.str "N/A"))
      ++ "</div>\n                            <div class=\"metric-label\">CAC Médio</div>\n                        </div>\n                        <div class=\"metric-item\">\n                            <div class=\"metric-value\">"
      ++ jsToString (jsOr (getPropOpt metricas "ltv_medio") (.str "N/A"))
      ++ "</div>\n                            <div class=\"metric-label\">LTV Médio</div>\n                        </div>\n                        <div class=\"metric-item\">\n                            <div class=\"metric-value\">"
      ++ jsToString (jsOr (getPropOpt metricas "ltv_cac_ratio") (.str "N/A"))
      ++ "</div>\n                            <div class=\"metric-label\">LTV:CAC Ratio</div>\n                        </div>\n                    </div>\n                    \n                    <div class=\"detail-item\">\n                        <strong>Funil de Conversão:</strong>\n                        <div class=\"funil-steps\">\n                            "
      ++ jsToString (jsOr funilItems (.str "<p>Não especificado</p>"))
      ++ "\n                        </div>\n                    </div>\n                    \n                    <div class=\"detail-item\">\n                        <strong>ROI por Canal:</strong>\n                        <div class=\"roi-channels\">\n                            "
      ++ strJoinSep "" roiItems
      ++ "\n                        </div>\n                    </div>\n                </div>\n            </div>\n        </div>\n    ")

/-- Source: `generateVozMercadoSection` (script.js 672-731). -/
def generateVozMercadoSection (voz_mercado : JsVal) : Except String String :=
  if !(truthy voz_mercado) then .ok "" else do
    let objItems ← jsMapIdxJoinOpt (getPropOpt voz_mercado "objecoes") ""
      (fun obj index => do
        let objecao ← getPropStrict obj "objecao"
        let contorno ← getPropStrict obj "contorno"
        .ok ("\n                                <div class=\"objecao-item\">\n                                    <h5>Objeção "
          ++ toString (index + 1) ++ ": " ++ jsToString objecao
          ++ "</h5>\n                                    <p><strong>Como contornar:</strong> "
          ++ jsToString contorno
          ++ "</p>\n                                </div>\n                            "))
    let termosItems ← jsMapJoinOpt (getPropOpt (getPropOpt voz_mercado "linguagem") "termos") ""
      (fun termo => .ok ("<li>" ++ jsToString termo ++ "</li>"))
    let giriasItems ← jsMapJoinOpt (getPropOpt (getPropOpt voz_mercado "linguagem") "girias") ""
      (fun giria => .ok ("<li>" ++ jsToString giria ++ "</li>"))
    let gatilhosItems ← jsMapJoinOpt (getPropOpt (getPropOpt voz_mercado "linguagem") "gatilhos") ""
      (fun gatilho => .ok ("<li>" ++ jsToString gatilho ++ "</li>"))
    let crencasItems ← jsMapJoinOpt (getPropOpt voz_mercado "crencas_limitantes") ""
      (fun crenca => .ok ("<li>" ++ jsToString crenca ++ "</li>"))
    .ok ("\n        <div class=\"neo-enhanced-card result-card\">\n            <div class=\"neo-card-header\">\n                <div class=\"neo-card-icon\">\n                    <i class=\"fas fa-comments\"></i>\n                </div>\n                <h3 class=\"neo-card-title\">Voz do Mercado</h3>\n            </div>\n            <div class=\"neo-card-content\">\n                <div class=\"voz-content\">\n                    <div class=\"detail-item\">\n                        <strong>Principais Objeções e Como Contorná-las:</strong>\n                        <div class=\"objecoes-list\">\n                            "
      ++ jsToString (jsOr objItems (.str "<p>Não especificado</p>"))
      ++ "\n                        </div>\n                    </div>\n                    \n                    <div class=\"detail-item\">\n                        <strong>Linguagem do Mercado:</strong>\n                        <div class=\"linguagem-grid\">\n                            <div class=\"linguagem-item\">\n                                <h5>Termos Técnicos:</h5>\n                                <ul>\n                                    "
      ++ jsToString (jsOr termosItems (.str "<li>Não especificado</li>"))
      ++ "\n                                </ul>\n                            </div>\n                            <div class=\"linguagem-item\">\n                                <h5>Gírias e Expressões:</h5>\n                                <ul>\n                                    "
      ++ jsToString (jsOr giriasItems (.str "<li>Não especificado</li>"))
      ++ "\n                                </ul>\n                            </div>\n                            <div class=\"linguagem-item\">\n                                <h5>Gatilhos Emocionais:</h5>\n                                <ul>\n                                    "
      ++ jsToString (jsOr gatilhosItems (.str "<li>Não especificado</li>"))
      ++ "\n                                </ul>\n                            </div>\n                        </div>\n                    </div>\n                    \n                    <div class=\"detail-item\">\n                        <strong>Crenças Limitantes Comuns:</strong>\n                        <ul>\n                            "
      ++ jsToString (jsOr crencasItems (.str "<li>Não especificado</li>"))
      ++ "\n                        </ul>\n                    </div>\n                </div>\n            </div>\n        </div>\n    ")

/-- Source: `generateProjecoesSection` (script.js 733-805). Purely
optional-chained scalar fields with `|| 'N/A'` fallbacks; never throws once
the guard passes. -/
def generateProjecoesSection (projecoes : JsVal) : Except String String :=
  if !(truthy projecoes) then .ok "" else
    .ok ("\n        <div class=\"neo-enhanced-card result-card\">\n            <div class=\"neo-card-header\">\n                <div class=\"neo-card-icon\">\n                    <i class=\"fas fa-chart-bar\"></i>\n                </div>\n                <h3 class=\"neo-card-title\">Projeções de Resultados</h3>\n            </div>\n            <div class=\"neo-card-content\">\n                <div class=\"projecoes-content\">\n                    <div class=\"cenarios-grid\">\n                        <div class=\"cenario-item conservador\">\n                            <h4>Cenário Conservador</h4>\n                            <div class=\"cenario-metrics\">\n                                <div class=\"metric\">\n                                    <span class=\"label\">Conversão:</span>\n                                    <span class=\"value\">"
      ++ jsToString (jsOr (getPropOpt (getPropOpt projecoes "conservador") "conversao") (.str "N/A"))
      ++ "</span>\n                                </div>\n                                <div class=\"metric\">\n                                    <span class=\"label\">Faturamento:</span>\n                                    <span class=\"value\">"
      ++ jsToString (jsOr (getPropOpt (getPropOpt projecoes "conservador") "faturamento") (.str "N/A"))
      ++ "</span>\n                                </div>\n                                <div class=\"metric\">\n                                    <span class=\"label\">ROI:</span>\n                                    <span class=\"value\">"
      ++ jsToString (jsOr (getPropOpt (getPropOpt projecoes "conservador") "roi") (.str "N/A"))
      ++ "</span>\n                                </div>\n                            </div>\n                        </div>\n                        \n                        <div class=\"cenario-item realista\">\n                            <h4>Cenário Realista</h4>\n                            <div class=\"cenario-metrics\">\n                                <div class=\"metric\">\n                                    <span class=\"label\">Conversão:</span>\n                                    <span class=\"value\">"
      ++ jsToString (jsOr (getPropOpt (getPropOpt projecoes "realista") "conversao") (.str "N/A"))
      ++ "</span>\n                                </div>\n                                <div class=\"metric\">\n                                    <span class=\"label\">Faturamento:</span>\n                                    <span class=\"value\">"
      ++ jsToString (jsOr (getPropOpt (getPropOpt projecoes "realista") "faturamento") (.str "N/A"))
      ++ "</span>\n                                </div>\n                                <div class=\"metric\">\n                                    <span class=\"label\">ROI:</span>\n                                    <span class=\"value\">"
      ++ jsToString (jsOr (getPropOpt (getPropOpt projecoes "realista") "roi") (.str "N/A"))
      ++ "</span>\n                                </div>\n                            </div>\n                        </div>\n                        \n                        <div class=\"cenario-item otimista\">\n                            <h4>Cenário Otimista</h4>\n                            <div class=\"cenario-metrics\">\n                                <div class=\"metric\">\n                                    <span class=\"label\">Conversão:</span>\n                                    <span class=\"value\">"
      ++ jsToString (jsOr (getPropOpt (getPropOpt projecoes "otimista") "conversao") (.str "N/A"))
      ++ "</span>\n                                </div>\n                                <div class=\"metric\">\n                                    <span class=\"label\">Faturamento:</span>\n                                    <span class=\"value\">"
      ++ jsToString (jsOr (getPropOpt (getPropOpt projecoes "otimista") "faturamento") (.str "N/A"))
      ++ "</span>\n                                </div>\n                                <div class=\"metric\">\n                                    <span class=\"label\">ROI:</span>\n                                    <span class=\"value\">"
      ++ jsToString (jsOr (getPropOpt (getPropOpt projecoes "otimista") "roi") (.str "N/A"))
      ++ "</span>\n                                </div>\n                            </div>\n                        </div>\n                    </div>\n                </div>\n            </div>\n        </div>\n    ")

/-- Source: `generatePlanoAcaoSection` (script.js 807-835). The section value
is itself the sequence; `.map(...).join('')` is applied with no fallback. -/
def generatePlanoAcaoSection (plano_acao : JsVal) : Except String String :=
  if !(truthy plano_acao) then .ok "" else do
    let acaoItems ← jsMapJoinOpt plano_acao ""
      (fun acao => do
        let passo ← getPropStrict acao "passo"
        let acaoTxt ← getPropStrict acao "acao"
        let prazo ← getPropStrict acao "prazo"
        .ok ("\n                            <div class=\"acao-item\">\n                                <div class=\"acao-number\">"
          ++ jsToString passo
          ++ "</div>\n                                <div class=\"acao-content\">\n                                    <h4>"
          ++ jsToString acaoTxt
          ++ "</h4>\n                                    <p class=\"acao-prazo\"><strong>Prazo:</strong> "
          ++ jsToString prazo
          ++ "</p>\n                                </div>\n                            </div>\n                        "))
    .ok ("\n        <div class=\"neo-enhanced-card result-card full-width\">\n            <div class=\"neo-card-header\">\n                <div class=\"neo-card-icon\">\n                    <i class=\"fas fa-tasks\"></i>\n                </div>\n                <h3 class=\"neo-card-title\">Plano de Ação Estratégico</h3>\n            </div>\n            <div class=\"neo-card-content\">\n                <div class=\"plano-content\">\n                    <div class=\"acoes-timeline\">\n                        "
      ++ jsToString acaoItems
      ++ "\n                    </div>\n                </div>\n            </div>\n        </div>\n    ")

/-- Source: `generateResultsHTML` (script.js 196-235), the report composer: a
fixed header fragment with the two export actions, then the ten section
renderers invoked in order on `analysis.<section>`. Each `analysis.x` is a
plain property access, so a `null`/`undefined` record throws; a renderer's
thrown `TypeError` propagates — there is no try/catch anywhere in the
composer. -/
def generateResultsHTML (analysis : JsVal) : Except String String := do
  let escopoV ← getPropStrict analysis "escopo"
  let escopoS ← generateEscopoSection escopoV
  let avatarV ← getPropStrict analysis "avatar"
  let avatarS ← generateAvatarSection avatarV
  let doresV ← getPropStrict analysis "dores_desejos"
  let doresS ← generateDoresDesejos doresV
  let concV ← getPropStrict analysis "concorrencia"
  let concS ← generateConcorrenciaSection concV
  let mercadoV ← getPropStrict analysis "mercado"
  let mercadoS ← generateMercadoSection mercadoV
  let palavrasV ← getPropStrict analysis "palavras_chave"
  let palavrasS ← generatePalavrasChaveSection palavrasV
  let metricasV ← getPropStrict analysis "metricas"
  let metricasS ← generateMetricasSection metricasV
  let vozV ← getPropStrict analysis "voz_mercado"
  let vozS ← generateVozMercadoSection vozV
  let projecoesV ← getPropStrict analysis "projecoes"
  let projecoesS ← generateProjecoesSection projecoesV
  let planoV ← getPropStrict analysis "plano_acao"
  let planoS ← generatePlanoAcaoSection planoV
  .ok ("\n        <div class=\"results-header\">\n            <div class=\"neo-enhanced-card\">\n                <div class=\"neo-card-header\">\n                    <div class=\"neo-card-icon\">\n                        <i class=\"fas fa-trophy\"></i>\n                    </div>\n                    <h3 class=\"neo-card-title\">Análise Completa Finalizada</h3>\n                </div>\n                <div class=\"neo-card-content\">\n                    <p>Sua análise ultra-detalhada foi processada pela IA DeepSeek. Esta é uma análise completa baseada em frameworks científicos de psicologia do consumidor e neurociência aplicada ao marketing.</p>\n                    <div class=\"results-actions\">\n                        <button class=\"neo-cta-button\" onclick=\"downloadReport()\">\n                            <i class=\"fas fa-download\"></i>\n                            <span>Baixar Relatório Completo</span>\n                        </button>\n                        <button class=\"neo-cta-button\" onclick=\"shareResults()\" style=\"background: var(--neo-bg); color: var(--text-primary); box-shadow: var(--neo-shadow-1);\">\n                            <i class=\"fas fa-share\"></i>\n                            <span>Compartilhar</span>\n                        </button>\n                    </div>\n                </div>\n            </div>\n        </div>\n        \n        <div class=\"results-grid\">\n            "
    ++ escopoS ++ "\n            " ++ avatarS ++ "\n            " ++ doresS ++ "\n            "
    ++ concS ++ "\n            " ++ mercadoS ++ "\n            " ++ palavrasS ++ "\n            "
    ++ metricasS ++ "\n            " ++ vozS ++ "\n            " ++ projecoesS ++ "\n            "
    ++ planoS ++ "\n        </div>\n    ")

/-- The fixed text of the exporter's output up to and including the
`Gerado em: ` label, after which the generation timestamp is spliced in. -/
def exportStampPre : String :=
  "\nRELATÓRIO COMPLETO DE ANÁLISE DE AVATAR\n=======================================\nGerado em: "

/-- Source: `generateComprehensiveReport` (script.js 886-967), the plain-text
exporter: one template literal walking `escopo`, `avatar`, `dores_desejos`,
`mercado`, `metricas`, `projecoes` and `plano_acao` through optional chains
with `|| 'N/A'` fallbacks. `new Date().toLocaleString()` is the `now`
parameter. Each `analysis.<section>` is a plain property access (bound once
per section here; the source re-evaluates the same pure access per line). -/
def generateComprehensiveReport (now : String) (analysis : JsVal) : Except String String := do
  let escopo ← getPropStrict analysis "escopo"
  let subnichosJ ← jsJoinOpt (getPropOpt escopo "subnichos") ", "
  let avatar ← getPropStrict analysis "avatar"
  let profissoesJ ← jsJoinOpt (getPropOpt (getPropOpt avatar "demografia") "profissoes") ", "
  let valoresJ ← jsJoinOpt (getPropOpt (getPropOpt avatar "psicografia") "valores") ", "
  let aspiracoesJ ← jsJoinOpt (getPropOpt (getPropOpt avatar "psicografia") "aspiracoes") ", "
  let medosJ ← jsJoinOpt (getPropOpt (getPropOpt avatar "psicografia") "medos") ", "
  let frustracoesJ ← jsJoinOpt (getPropOpt (getPropOpt avatar "psicografia") "frustracoes") ", "
  let plataformasJ ← jsJoinOpt (getPropOpt (getPropOpt avatar "comportamento_digital") "plataformas") ", "
  let conteudoJ ← jsJoinOpt (getPropOpt (getPropOpt avatar "comportamento_digital") "conteudo_preferido") ", "
  let dores ← getPropStrict analysis "dores_desejos"
  let mercado ← getPropStrict analysis "mercado"
  let metricas ← getPropStrict analysis "metricas"
  let projecoes ← getPropStrict analysis "projecoes"
  let planoAcao ← getPropStrict analysis "plano_acao"
  let planoJ ← jsMapJoinOpt planoAcao "\n"
    (fun acao => do
      let passo ← getPropStrict acao "passo"
      let acaoTxt ← getPropStrict acao "acao"
      let prazo ← getPropStrict acao "prazo"
      .ok (jsToString passo ++ ". " ++ jsToString acaoTxt ++ " (" ++ jsToString prazo ++ ")"))
  .ok (exportStampPre ++ now ++
    ("\nPowered by DeepSeek AI\n\n🎯 DEFINIÇÃO DO ESCOPO\n=====================\nNicho Principal: "
    ++ jsToString (jsOr (getPropOpt escopo "nicho_principal") (.str "N/A"))
    ++ "\nSubnichos: "
    ++ jsToString (jsOr subnichosJ (.str "N/A"))
    ++ "\nProduto Ideal: "
    ++ jsToString (jsOr (getPropOpt escopo "produto_ideal") (.str "N/A"))
    ++ "\nProposta de Valor: "
    ++ jsToString (jsOr (getPropOpt escopo "proposta_valor") (.str "N/A"))
    ++ "\n\n👥 ANÁLISE DO AVATAR\n===================\n\nDEMOGRAFIA:\n- Faixa Etária: "
    ++ jsToString (jsOr (getPropOpt (getPropOpt avatar "demografia") "faixa_etaria") (.str "N/A"))
    ++ "\n- Gênero: "
    ++ jsToString (jsOr (getPropOpt (getPropOpt avatar "demografia") "genero") (.str "N/A"))
    ++ "\n- Localização: "
    ++ jsToString (jsOr (getPropOpt (getPropOpt avatar "demografia") "localizacao") (.str "N/A"))
    ++ "\n- Renda: "
    ++ jsToString (jsOr (getPropOpt (getPropOpt avatar "demografia") "renda") (.str "N/A"))
    ++ "\n- Escolaridade: "
    ++ jsToString (jsOr (getPropOpt (getPropOpt avatar "demografia") "escolaridade") (.str "N/A"))
    ++ "\n- Profissões: "
    ++ jsToString (jsOr profissoesJ (.str "N/A"))
    ++ "\n\nPSICOGRAFIA:\n- Valores: "
    ++ jsToString (jsOr valoresJ (.str "N/A"))
    ++ "\n- Estilo de Vida: "
    ++ jsToString (jsOr (getPropOpt (getPropOpt avatar "psicografia") "estilo_vida") (.str "N/A"))
    ++ "\n- Aspirações: "
    ++ jsToString (jsOr aspiracoesJ (.str "N/A"))
    ++ "\n- Medos: "
    ++ jsToString (jsOr medosJ (.str "N/A"))
    ++ "\n- Frustrações: "
    ++ jsToString (jsOr frustracoesJ (.str "N/A"))
    ++ "\n\nCOMPORTAMENTO DIGITAL:\n- Plataformas: "
    ++ jsToString (jsOr plataformasJ (.str "N/A"))
    ++ "\n- Horários de Pico: "
    ++ jsToString (jsOr (getPropOpt (getPropOpt avatar "comportamento_digital") "horarios_pico") (.str "N/A"))
    ++ "\n- Conteúdo Preferido: "
    ++ jsToString (jsOr conteudoJ (.str "N/A"))
    ++ "\n\n💔 DORES E DESEJOS\n=================\nEstado Atual: "
    ++ jsToString (jsOr (getPropOpt dores "estado_atual") (.str "N/A"))
    ++ "\nEstado Desejado: "
    ++ jsToString (jsOr (getPropOpt dores "estado_desejado") (.str "N/A"))
    ++ "\nSonho Secreto: "
    ++ jsToString (jsOr (getPropOpt dores "sonho_secreto") (.str "N/A"))
    ++ "\n\n💰 ANÁLISE DE MERCADO\n====================\nTAM: "
    ++ jsToString (jsOr (getPropOpt mercado "tam") (.str "N/A"))
    ++ "\nSAM: "
    ++ jsToString (jsOr (getPropOpt mercado "sam") (.str "N/A"))
    ++ "\nSOM: "
    ++ jsToString (jsOr (getPropOpt mercado "som") (.str "N/A"))
    ++ "\nVolume de Busca: "
    ++ jsToString (jsOr (getPropOpt mercado "volume_busca") (.str "N/A"))
    ++ "\n\n📊 MÉTRICAS DE PERFORMANCE\n=========================\nCAC Médio: "
    ++ jsToString (jsOr (getPropOpt metricas "cac_medio") (.str "N/A"))
    ++ "\nLTV Médio: "
    ++ jsToString (jsOr (getPropOpt metricas "ltv_medio") (.str "N/A"))
    ++ "\nLTV:CAC Ratio: "
    ++ jsToString (jsOr (getPropOpt metricas "ltv_cac_ratio") (.str "N/A"))
    ++ "\n\n📈 PROJEÇÕES\n============\nCONSERVADOR:\n- Conversão: "
    ++ jsToString (jsOr (getPropOpt (getPropOpt projecoes "conservador") "conversao") (.str "N/A"))
    ++ "\n- Faturamento: "
    ++ jsToString (jsOr (getPropOpt (getPropOpt projecoes "conservador") "faturamento") (.str "N/A"))
    ++ "\n- ROI: "
    ++ jsToString (jsOr (getPropOpt (getPropOpt projecoes "conservador") "roi") (.str "N/A"))
    ++ "\n\nREALISTA:\n- Conversão: "
    ++ jsToString (jsOr (getPropOpt (getPropOpt projecoes "realista") "conversao") (.str "N/A"))
    ++ "\n- Faturamento: "
    ++ jsToString (jsOr (getPropOpt (getPropOpt projecoes "realista") "faturamento") (.str "N/A"))
    ++ "\n- ROI: "
    ++ jsToString (jsOr (getPropOpt (getPropOpt projecoes "realista") "roi") (.str "N/A"))
    ++ "\n\nOTIMISTA:\n- Conversão: "
    ++ jsToString (jsOr (getPropOpt (getPropOpt projecoes "otimista") "conversao") (.str "N/A"))
    ++ "\n- Faturamento: "
    ++ jsToString (jsOr (getPropOpt (getPropOpt projecoes "otimista") "faturamento") (.str "N/A"))
    ++ "\n- ROI: "
    ++ jsToString (jsOr (getPropOpt (getPropOpt projecoes "otimista") "roi") (.str "N/A"))
    ++ "\n\n💡 PLANO DE AÇÃO\n===============\n"
    ++ jsToString (jsOr planoJ (.str "N/A"))
    ++ "\n\n---\nRelatório gerado pela plataforma UP Lançamentos\nAnálise powered by DeepSeek AI\n    "))

/-- The flags the avatar tab controller manipulates: which of the three
`tab-content` blocks and which of the three `tab-btn` buttons carry the
`active` class in the rendered avatar section. -/
structure AvatarTabState where
  demografiaContent : Bool
  psicografiaContent : Bool
  comportamentoContent : Bool
  demografiaBtn : Bool
  psicografiaBtn : Bool
  comportamentoBtn : Bool
deriving DecidableEq, Repr

/-- The markup of `generateAvatarSection` flags the demografia content block
and the demografia button as `active`. -/
def initAvatarTabs : AvatarTabState :=
  { demografiaContent := true
    psicografiaContent := false
    comportamentoContent := false
    demografiaBtn := true
    psicografiaBtn := false
    comportamentoBtn := false }

/-- Whether `pat` occurs at the start of the character list. -/
def charsStartWith : List Char → List Char → Bool
  | [], _ => true
  | _ :: _, [] => false
  | p :: ps, c :: cs => p == c && charsStartWith ps cs

/-- Whether `pat` occurs anywhere in the character list
(`String.prototype.includes`). -/
def charsContain (pat : List Char) : List Char → Bool
  | [] => charsStartWith pat []
  | c :: cs => charsStartWith pat (c :: cs) || charsContain pat cs

/-- Substring test on strings. -/
def strContains (s pat : String) : Bool := charsContain pat.data s.data

/-- Number of (possibly overlapping) occurrences of `pat` in the characters. -/
def charsCount (pat : List Char) : List Char → Nat
  | [] => if charsStartWith pat [] then 1 else 0
  | c :: cs => (if charsStartWith pat (c :: cs) then 1 else 0) + charsCount pat cs

/-- Number of occurrences of `pat` in `s` (used to count placeholder items). -/
def strCount (s pat : String) : Nat := charsCount pat.data s.data

/-- Source: `showAvatarTab` (script.js 839-861), the avatar tab controller.
It removes `active` from every `tab-content` block and every `tab-btn`, then
re-adds it to `getElementById(tabName + "-content")` when that element exists
(only the three rendered ids can match), and to the FIRST button whose
lower-cased text contains the lower-cased `tabName`. The result does not
depend on the previous flags — the controller clears unconditionally. -/
def showAvatarTab (tabName : String) (_s : AvatarTabState) : AvatarTabState :=
  { demografiaContent := tabName ++ "-content" == "demografia-content"
    psicografiaContent := tabName ++ "-content" == "psicografia-content"
    comportamentoContent := tabName ++ "-content" == "comportamento-content"
    demografiaBtn := strContains (jsLower "Demografia") (jsLower tabName)
    psicografiaBtn := !(strContains (jsLower "Demografia") (jsLower tabName))
      && strContains (jsLower "Psicografia") (jsLower tabName)
    comportamentoBtn := !(strContains (jsLower "Demografia") (jsLower tabName))
      && !(strContains (jsLower "Psicografia") (jsLower tabName))
      && strContains (jsLower "Comportamento Digital") (jsLower tabName) }

/-- Number of avatar tab content blocks currently flagged visible. -/
def contentCount (s : AvatarTabState) : Nat :=
  (if s.demografiaContent then 1 else 0)
    + (if s.psicografiaContent then 1 else 0)
    + (if s.comportamentoContent then 1 else 0)

/-- Tab-controller states reachable from the freshly rendered avatar section
by any sequence of `showAvatarTab` calls with arbitrary string arguments. -/
inductive ReachableTabState : AvatarTabState → Prop where
  | init : ReachableTabState initAvatarTabs
  | step (name : String) {s : AvatarTabState} :
      ReachableTabState s → ReachableTabState (showAvatarTab name s)

/-- An optional string-valued field (§3 scalar): absent or a string. -/
def isStrOpt : JsVal → Bool
  | .undefined => true
  | .str _ => true
  | _ => false

/-- An optional integral field (`plano_acao[].passo`). -/
def isIntOpt : JsVal → Bool
  | .undefined => true
  | .num _ => true
  | _ => false

/-- An optional sequence whose elements all satisfy `p`. -/
def isArrOf (p : JsVal → Bool) : JsVal → Bool
  | .undefined => true
  | .arr xs => xs.all p
  | _ => false

/-- A §3 string. -/
def isStr : JsVal → Bool
  | .str _ => true
  | _ => false

/-- An optional sequence of strings. -/
def isStrArrOpt : JsVal → Bool := isArrOf isStr

/-- §3 `escopo`. -/
def wtEscopo : JsVal → Bool
  | .undefined => true
  | .obj fs =>
      isStrOpt (propLookup fs "nicho_principal") && isStrArrOpt (propLookup fs "subnichos")
        && isStrOpt (propLookup fs "produto_ideal") && isStrOpt (propLookup fs "proposta_valor")
  | _ => false

/-- §3 `avatar.demografia`. -/
def wtDemografia : JsVal → Bool
  | .undefined => true
  | .obj fs =>
      isStrOpt (propLookup fs "faixa_etaria") && isStrOpt (propLookup fs "genero")
        && isStrOpt (propLookup fs "localizacao") && isStrOpt (propLookup fs "renda")
        && isStrOpt (propLookup fs "escolaridade") && isStrArrOpt (propLookup fs "profissoes")
  | _ => false

/-- §3 `avatar.psicografia`. -/
def wtPsicografia : JsVal → Bool
  | .undefined => true
  | .obj fs =>
      isStrArrOpt (propLookup fs "valores") && isStrArrOpt (propLookup fs "aspiracoes")
        && isStrArrOpt (propLookup fs "medos") && isStrArrOpt (propLookup fs "frustracoes")
        && isStrOpt (propLookup fs "estilo_vida")
  | _ => false

/-- §3 `avatar.comportamento_digital`. -/
def wtComportamento : JsVal → Bool
  | .undefined => true
  | .obj fs =>
      isStrArrOpt (propLookup fs "plataformas") && isStrArrOpt (propLookup fs "conteudo_preferido")
        && isStrArrOpt (propLookup fs "influenciadores") && isStrOpt (propLookup fs "horarios_pico")
  | _ => false

/-- §3 `avatar`. -/
def wtAvatar : JsVal → Bool
  | .undefined => true
  | .obj fs =>
      wtDemografia (propLookup fs "demografia") && wtPsicografia (propLookup fs "psicografia")
        && wtComportamento (propLookup fs "comportamento_digital")
  | _ => false

/-- §3 pain item of `dores_desejos.principais_dores`. -/
def wtPainItem : JsVal → Bool
  | .obj fs =>
      isStrOpt (propLookup fs "descricao") && isStrOpt (propLookup fs "impacto")
        && isStrOpt (propLookup fs "urgencia")
  | _ => false

/-- §3 `dores_desejos`. -/
def wtDores : JsVal → Bool
  | .undefined => true
  | .obj fs =>
      isArrOf wtPainItem (propLookup fs "principais_dores")
        && isStrOpt (propLookup fs "estado_atual") && isStrOpt (propLookup fs "estado_desejado")
        && isStrOpt (propLookup fs "sonho_secreto") && isStrArrOpt (propLookup fs "obstaculos")
  | _ => false

/-- §3 direct-competitor item: `forcas`/`fraquezas` may be a sequence of
strings or a pre-joined string. -/
def wtDireto : JsVal → Bool
  | .obj fs =>
      isStrOpt (propLookup fs "nome") && isStrOpt (propLookup fs "preco")
        && isStrOpt (propLookup fs "usp")
        && (isStrArrOpt (propLookup fs "forcas") || isStrOpt (propLookup fs "forcas"))
        && (isStrArrOpt (propLookup fs "fraquezas") || isStrOpt (propLookup fs "fraquezas"))
  | _ => false

/-- §3 indirect-competitor item. -/
def wtIndireto : JsVal → Bool
  | .obj fs => isStrOpt (propLookup fs "nome") && isStrOpt (propLookup fs "tipo")
  | _ => false

/-- §3 `concorrencia`. -/
def wtConcorrencia : JsVal → Bool
  | .undefined => true
  | .obj fs =>
      isArrOf wtDireto (propLookup fs "diretos") && isArrOf wtIndireto (propLookup fs "indiretos")
        && isStrArrOpt (propLookup fs "gaps_mercado")
  | _ => false

/-- §3 `mercado.sazonalidade`. -/
def wtSazonalidade : JsVal → Bool
  | .undefined => true
  | .obj fs =>
      isStrArrOpt (propLookup fs "melhores_meses") && isStrArrOpt (propLookup fs "piores_meses")
  | _ => false

/-- §3 `mercado`. -/
def wtMercado : JsVal → Bool
  | .undefined => true
  | .obj fs =>
      isStrOpt (propLookup fs "tam") && isStrOpt (propLookup fs "sam")
        && isStrOpt (propLookup fs "som") && isStrOpt (propLookup fs "volume_busca")
        && isStrArrOpt (propLookup fs "tendencias_alta") && isStrArrOpt (propLookup fs "tendencias_baixa")
        && wtSazonalidade (propLookup fs "sazonalidade")
  | _ => false

/-- §3 keyword item of `palavras_chave.principais`. -/
def wtKeyword : JsVal → Bool
  | .obj fs =>
      isStrOpt (propLookup fs "termo") && isStrOpt (propLookup fs "volume")
        && isStrOpt (propLookup fs "cpc") && isStrOpt (propLookup fs "dificuldade")
        && isStrOpt (propLookup fs "intencao")
  | _ => false

/-- §3 per-platform cost record of `palavras_chave.custos_plataforma`. -/
def wtCusto : JsVal → Bool
  | .obj fs =>
      isStrOpt (propLookup fs "cpm") && isStrOpt (propLookup fs "cpc")
        && isStrOpt (propLookup fs "cpl") && isStrOpt (propLookup fs "conversao")
  | _ => false

/-- §3 `palavras_chave`: `custos_plataforma` is an optional mapping from
platform names to cost records. -/
def wtPalavras : JsVal → Bool
  | .undefined => true
  | .obj fs =>
      isArrOf wtKeyword (propLookup fs "principais")
        && (match propLookup fs "custos_plataforma" with
            | .undefined => true
            | .obj costs => costs.all fun p => wtCusto p.2
            | _ => false)
  | _ => false

/-- §3 `metricas`: `roi_canais` is an optional mapping to display strings. -/
def wtMetricas : JsVal → Bool
  | .undefined => true
  | .obj fs =>
      isStrOpt (propLookup fs "cac_medio") && isStrOpt (propLookup fs "ltv_medio")
        && isStrOpt (propLookup fs "ltv_cac_ratio") && isStrArrOpt (propLookup fs "funil_conversao")
        && (match propLookup fs "roi_canais" with
            | .undefined => true
            | .obj rois => rois.all fun p => isStr p.2
            | _ => false)
  | _ => false

/-- §3 objection item of `voz_mercado.objecoes`. -/
def wtObjecao : JsVal → Bool
  | .obj fs => isStrOpt (propLookup fs "objecao") && isStrOpt (propLookup fs "contorno")
  | _ => false

/-- §3 `voz_mercado.linguagem`. -/
def wtLinguagem : JsVal → Bool
  | .undefined => true
  | .obj fs =>
      isStrArrOpt (propLookup fs "termos") && isStrArrOpt (propLookup fs "girias")
        && isStrArrOpt (propLookup fs "gatilhos")
  | _ => false

/-- §3 `voz_mercado`. -/
def wtVoz : JsVal → Bool
  | .undefined => true
  | .obj fs =>
      isArrOf wtObjecao (propLookup fs "objecoes") && wtLinguagem (propLookup fs "linguagem")
        && isStrArrOpt (propLookup fs "crencas_limitantes")
  | _ => false

/-- §3 projection scenario. -/
def wtCenario : JsVal → Bool
  | .undefined => true
  | .obj fs =>
      isStrOpt (propLookup fs "conversao") && isStrOpt (propLookup fs "faturamento")
        && isStrOpt (propLookup fs "roi")
  | _ => false

/-- §3 `projecoes`. -/
def wtProjecoes : JsVal → Bool
  | .undefined => true
  | .obj fs =>
      wtCenario (propLookup fs "conservador") && wtCenario (propLookup fs "realista")
        && wtCenario (propLookup fs "otimista")
  | _ => false

/-- §3 action item of `plano_acao`. -/
def wtPlanoItem : JsVal → Bool
  | .obj fs =>
      isIntOpt (propLookup fs "passo") && isStrOpt (propLookup fs "acao")
        && isStrOpt (propLookup fs "prazo")
  | _ => false

/-- §3 `plano_acao`: the section value is itself an optional sequence. -/
def wtPlano : JsVal → Bool := isArrOf wtPlanoItem

/-- A §3 AnalysisRecord: an object whose ten top-level sections are each
independently optional and, when present, shaped as §3 prescribes. -/
def WellTyped : JsVal → Bool
  | .obj fs =>
      wtEscopo (propLookup fs "escopo") && wtAvatar (propLookup fs "avatar")
        && wtDores (propLookup fs "dores_desejos") && wtConcorrencia (propLookup fs "concorrencia")
        && wtMercado (propLookup fs "mercado") && wtPalavras (propLookup fs "palavras_chave")
        && wtMetricas (propLookup fs "metricas") && wtVoz (propLookup fs "voz_mercado")
        && wtProjecoes (propLookup fs "projecoes") && wtPlano (propLookup fs "plano_acao")
  | _ => false

/-- The escopo fragment as a function of its four interpolation slots (the
fixed text is exactly the template of `generateEscopoSection`): used to state
where each rendered value lands. -/
def escopoBlock (nicho subItems produto proposta : String) : String :=
  "\n        <div class=\"neo-enhanced-card result-card\">\n            <div class=\"neo-card-header\">\n                <div class=\"neo-card-icon\">\n                    <i class=\"fas fa-bullseye\"></i>\n                </div>\n                <h3 class=\"neo-card-title\">Definição do Escopo</h3>\n            </div>\n            <div class=\"neo-card-content\">\n                <div class=\"escopo-content\">\n                    <div class=\"detail-item\">\n                        <strong>Nicho Principal:</strong>\n                        <p>"
    ++ nicho
    ++ "</p>\n                    </div>\n                    \n                    <div class=\"detail-item\">\n                        <strong>Subnichos Identificados:</strong>\n                        <ul>\n                            "
    ++ subItems
    ++ "\n                        </ul>\n                    </div>\n                    \n                    <div class=\"detail-item\">\n                        <strong>Produto Ideal:</strong>\n                        <p>"
    ++ produto
    ++ "</p>\n                    </div>\n                    \n                    <div class=\"detail-item\">\n                        <strong>Proposta de Valor Única:</strong>\n                        <p>"
    ++ proposta
    ++ "</p>\n                    </div>\n                </div>\n            </div>\n        </div>\n    "

/-- The dores/desejos fragment as a function of its five interpolation slots
(the fixed text is exactly the template of `generateDoresDesejos`): the pain
item list, the estado-atual/estado-desejado scalars, the obstáculos item
list, and the sonho-secreto scalar. -/
def doresBlock (dorItems estadoAtual estadoDesejado obstItems sonho : String) : String :=
  "\n        <div class=\"neo-enhanced-card result-card\">\n            <div class=\"neo-card-header\">\n                <div class=\"neo-card-icon\">\n                    <i class=\"fas fa-heart-broken\"></i>\n                </div>\n                <h3 class=\"neo-card-title\">Mapeamento de Dores e Desejos</h3>\n            </div>\n            <div class=\"neo-card-content\">\n                <div class=\"dores-content\">\n                    <div class=\"detail-item\">\n                        <strong>Principais Dores Identificadas:</strong>\n                        <div class=\"dores-list\">\n                            "
    ++ dorItems
    ++ "\n                        </div>\n                    </div>\n                    \n                    <div class=\"detail-item\">\n                        <strong>Estado Atual:</strong>\n                        <p>"
    ++ estadoAtual
    ++ "</p>\n                    </div>\n                    \n                    <div class=\"detail-item\">\n                        <strong>Estado Desejado:</strong>\n                        <p>"
    ++ estadoDesejado
    ++ "</p>\n                    </div>\n                    \n                    <div class=\"detail-item\">\n                        <strong>Obstáculos Percebidos:</strong>\n                        <ul>\n                            "
    ++ obstItems
    ++ "\n                        </ul>\n                    </div>\n                    \n                    <div class=\"detail-item\">\n                        <strong>Sonho Secreto:</strong>\n                        <p class=\"sonho-secreto\">"
    ++ sonho
    ++ "</p>\n                    </div>\n                </div>\n            </div>\n        </div>\n    "

/-- The avatar fragment as a function of its fifteen interpolation slots (the
fixed text is exactly the template of `generateAvatarSection`), in template
order: the five demografia scalars, the profissões item list, the valores
item list, the estilo-de-vida scalar, the aspirações/medos/frustrações item
lists, the plataformas item list, the horários scalar, and the
conteúdo/influenciadores item lists. -/
def avatarBlock (faixa genero localizacao renda escolaridade profItems valorItems estilo
    aspItems medoItems frustItems platItems horarios contItems infItems : String) : String :=
  "\n        <div class=\"neo-enhanced-card result-card\">\n            <div class=\"neo-card-header\">\n                <div class=\"neo-card-icon\">\n                    <i class=\"fas fa-user-circle\"></i>\n                </div>\n                <h3 class=\"neo-card-title\">Análise Completa do Avatar</h3>\n            </div>\n            <div class=\"neo-card-content\">\n                <div class=\"avatar-tabs\">\n                    <button class=\"tab-btn active\" onclick=\"showAvatarTab(\x27demografia\x27)\">Demografia</button>\n                    <button class=\"tab-btn\" onclick=\"showAvatarTab(\x27psicografia\x27)\">Psicografia</button>\n                    <button class=\"tab-btn\" onclick=\"showAvatarTab(\x27comportamento\x27)\">Comportamento Digital</button>\n                </div>\n                \n                <div class=\"avatar-content\">\n                    <div id=\"demografia-content\" class=\"tab-content active\">\n                        <h4>Perfil Demográfico</h4>\n                        <div class=\"avatar-details\">\n                            <div class=\"detail-item\">\n                                <strong>Faixa Etária:</strong>\n                                <p>"
    ++ faixa
    ++ "</p>\n                            </div>\n                            <div class=\"detail-item\">\n                                <strong>Gênero:</strong>\n                                <p>"
    ++ genero
    ++ "</p>\n                            </div>\n                            <div class=\"detail-item\">\n                                <strong>Localização:</strong>\n                                <p>"
    ++ localizacao
    ++ "</p>\n                            </div>\n                            <div class=\"detail-item\">\n                                <strong>Renda:</strong>\n                                <p>"
    ++ renda
    ++ "</p>\n                            </div>\n                            <div class=\"detail-item\">\n                                <strong>Escolaridade:</strong>\n                                <p>"
    ++ escolaridade
    ++ "</p>\n                            </div>\n                            <div class=\"detail-item\">\n                                <strong>Profissões Principais:</strong>\n                                <ul>\n                                    "
    ++ profItems
    ++ "\n                                </ul>\n                            </div>\n                        </div>\n                    </div>\n                    \n                    <div id=\"psicografia-content\" class=\"tab-content\">\n                        <h4>Perfil Psicográfico</h4>\n                        <div class=\"avatar-details\">\n                            <div class=\"detail-item\">\n                                <strong>Valores Principais:</strong>\n                                <ul>\n                                    "
    ++ valorItems
    ++ "\n                                </ul>\n                            </div>\n                            <div class=\"detail-item\">\n                                <strong>Estilo de Vida:</strong>\n                                <p>"
    ++ estilo
    ++ "</p>\n                            </div>\n                            <div class=\"detail-item\">\n                                <strong>Aspirações:</strong>\n                                <ul>\n                                    "
    ++ aspItems
    ++ "\n                                </ul>\n                            </div>\n                            <div class=\"detail-item\">\n                                <strong>Medos Principais:</strong>\n                                <ul>\n                                    "
    ++ medoItems
    ++ "\n                                </ul>\n                            </div>\n                            <div class=\"detail-item\">\n                                <strong>Frustrações:</strong>\n                                <ul>\n                                    "
    ++ frustItems
    ++ "\n                                </ul>\n                            </div>\n                        </div>\n                    </div>\n                    \n                    <div id=\"comportamento-content\" class=\"tab-content\">\n                        <h4>Comportamento Digital</h4>\n                        <div class=\"avatar-details\">\n                            <div class=\"detail-item\">\n                                <strong>Plataformas Principais:</strong>\n                                <ul>\n                                    "
    ++ platItems
    ++ "\n                                </ul>\n                            </div>\n                            <div class=\"detail-item\">\n                                <strong>Horários de Pico:</strong>\n                                <p>"
    ++ horarios
    ++ "</p>\n                            </div>\n                            <div class=\"detail-item\">\n                                <strong>Conteúdo Preferido:</strong>\n                                <ul>\n                                    "
    ++ contItems
    ++ "\n                                </ul>\n                            </div>\n                            <div class=\"detail-item\">\n                                <strong>Influenciadores que Seguem:</strong>\n                                <ul>\n                                    "
    ++ infItems
    ++ "\n                                </ul>\n                            </div>\n                        </div>\n                    </div>\n                </div>\n            </div>\n        </div>\n    "

/-- The exporter's output for a record with every section absent: the fixed
template text with the generation timestamp spliced in and every one of the
38 field slots reading `N/A`. Only seven section headers exist — ESCOPO,
AVATAR, DORES E DESEJOS, MERCADO, MÉTRICAS, PROJEÇÕES and PLANO DE AÇÃO; the
exporter's template has no concorrência, palavras-chave or voz-do-mercado
block at all. -/
def exportAllAbsent (t : String) : String :=
  exportStampPre ++ t ++
    ("\nPowered by DeepSeek AI\n\n🎯 DEFINIÇÃO DO ESCOPO\n=====================\nNicho Principal: "
    ++ "N/A" ++ "\nSubnichos: " ++ "N/A" ++ "\nProduto Ideal: " ++ "N/A"
    ++ "\nProposta de Valor: " ++ "N/A"
    ++ "\n\n👥 ANÁLISE DO AVATAR\n===================\n\nDEMOGRAFIA:\n- Faixa Etária: "
    ++ "N/A" ++ "\n- Gênero: " ++ "N/A" ++ "\n- Localização: " ++ "N/A"
    ++ "\n- Renda: " ++ "N/A" ++ "\n- Escolaridade: " ++ "N/A" ++ "\n- Profissões: " ++ "N/A"
    ++ "\n\nPSICOGRAFIA:\n- Valores: " ++ "N/A" ++ "\n- Estilo de Vida: " ++ "N/A"
    ++ "\n- Aspirações: " ++ "N/A" ++ "\n- Medos: " ++ "N/A" ++ "\n- Frustrações: " ++ "N/A"
    ++ "\n\nCOMPORTAMENTO DIGITAL:\n- Plataformas: " ++ "N/A" ++ "\n- Horários de Pico: " ++ "N/A"
    ++ "\n- Conteúdo Preferido: " ++ "N/A"
    ++ "\n\n💔 DORES E DESEJOS\n=================\nEstado Atual: " ++ "N/A"
    ++ "\nEstado Desejado: " ++ "N/A" ++ "\nSonho Secreto: " ++ "N/A"
    ++ "\n\n💰 ANÁLISE DE MERCADO\n====================\nTAM: " ++ "N/A"
    ++ "\nSAM: " ++ "N/A" ++ "\nSOM: " ++ "N/A" ++ "\nVolume de Busca: " ++ "N/A"
    ++ "\n\n📊 MÉTRICAS DE PERFORMANCE\n=========================\nCAC Médio: " ++ "N/A"
    ++ "\nLTV Médio: " ++ "N/A" ++ "\nLTV:CAC Ratio: " ++ "N/A"
    ++ "\n\n📈 PROJEÇÕES\n============\nCONSERVADOR:\n- Conversão: " ++ "N/A"
    ++ "\n- Faturamento: " ++ "N/A" ++ "\n- ROI: " ++ "N/A"
    ++ "\n\nREALISTA:\n- Conversão: " ++ "N/A" ++ "\n- Faturamento: " ++ "N/A"
    ++ "\n- ROI: " ++ "N/A"
    ++ "\n\nOTIMISTA:\n- Conversão: " ++ "N/A" ++ "\n- Faturamento: " ++ "N/A"
    ++ "\n- ROI: " ++ "N/A"
    ++ "\n\n💡 PLANO DE AÇÃO\n===============\n" ++ "N/A"
    ++ "\n\n---\nRelatório gerado pela plataforma UP Lançamentos\nAnálise powered by DeepSeek AI\n    ")

/-- Two exporter results that agree everywhere except that the first has `t₁`
and the second `t₂` spliced into the single `Gerado em:` timestamp slot (or
both fail with the same error). -/
def stampOnlyDiff (t₁ t₂ : String) (u v : Except String String) : Prop :=
  (∃ e, u = .error e ∧ v = .error e)
    ∨ (∃ b, u = .ok (exportStampPre ++ t₁ ++ b) ∧ v = .ok (exportStampPre ++ t₂ ++ b))

theorem appendRightCancel {a b c : String} (h : a ++ c = b ++ c) : a = b := by
  apply String.ext
  have h2 : a.data ++ c.data = b.data ++ c.data := by
    rw [← String.data_append, ← String.data_append, h]
  exact List.append_cancel_right h2

theorem beq_append_content (name lit : String) :
    (name ++ "-content" == lit ++ "-content") = (name == lit) := by
  by_cases h : name = lit
  · subst h; simp
  · have hne : ¬ (name ++ "-content" = lit ++ "-content") := fun hc => h (appendRightCancel hc)
    simp [h, hne]

theorem demografiaContent_eq (name : String) (s : AvatarTabState) :
    (showAvatarTab name s).demografiaContent = (name == "demografia") := by
  show (name ++ "-content" == "demografia-content") = (name == "demografia")
  conv_lhs => rw [show ("demografia-content" : String) = "demografia" ++ "-content" from rfl]
  exact beq_append_content name "demografia"

theorem psicografiaContent_eq (name : String) (s : AvatarTabState) :
    (showAvatarTab name s).psicografiaContent = (name == "psicografia") := by
  show (name ++ "-content" == "psicografia-content") = (name == "psicografia")
  conv_lhs => rw [show ("psicografia-content" : String) = "psicografia" ++ "-content" from rfl]
  exact beq_append_content name "psicografia"

theorem comportamentoContent_eq (name : String) (s : AvatarTabState) :
    (showAvatarTab name s).comportamentoContent = (name == "comportamento") := by
  show (name ++ "-content" == "comportamento-content") = (name == "comportamento")
  conv_lhs => rw [show ("comportamento-content" : String) = "comportamento" ++ "-content" from rfl]
  exact beq_append_content name "comportamento"

theorem contentCount_le_one (name : String) (s : AvatarTabState) :
    contentCount (showAvatarTab name s) ≤ 1 := by
  unfold contentCount
  rw [demografiaContent_eq, psicografiaContent_eq, comportamentoContent_eq]
  by_cases e1 : name = "demografia" <;> by_cases e2 : name = "psicografia" <;>
    by_cases e3 : name = "comportamento" <;> simp_all

theorem showAvatarTab_unrecognized_clears (name : String) (s : AvatarTabState)
    (h1 : name ≠ "demografia") (h2 : name ≠ "psicografia") (h3 : name ≠ "comportamento") :
    contentCount (showAvatarTab name s) = 0 := by
  unfold contentCount
  rw [demografiaContent_eq, psicografiaContent_eq, comportamentoContent_eq]
  simp [h1, h2, h3]

/-- C3 counterexample: after `selectTab('psicografia')` the psicografia block
is the one visible, but `selectTab('bogus')` is NOT a no-op — it clears every
`active` flag, leaving zero content blocks visible and psicografia no longer
active, contradicting the claim that the active tab stays `psicografia` with
exactly one visible block. -/
theorem c3_counterexample :
    (showAvatarTab "psicografia" initAvatarTabs).psicografiaContent = true
    ∧ contentCount (showAvatarTab "psicografia" initAvatarTabs) = 1
    ∧ showAvatarTab "bogus" (showAvatarTab "psicografia" initAvatarTabs)
        = { demografiaContent := false, psicografiaContent := false, comportamentoContent := false,
            demografiaBtn := false, psicografiaBtn := false, comportamentoBtn := false }
    ∧ contentCount (showAvatarTab "bogus" (showAvatarTab "psicografia" initAvatarTabs)) = 0 := by
  refine ⟨by decide, by decide, by decide, by decide⟩

/-- C3 (amended): `showAvatarTab` with a name outside
{demografia, psicografia, comportamento} is not a no-op: it removes the
`active` flag from all three content blocks and re-adds none, so zero content
blocks are flagged visible afterwards — the previously active tab does not
survive the call. -/
theorem c3_unrecognized_tab_clears_all (name : String) (s : AvatarTabState)
    (h1 : name ≠ "demografia") (h2 : name ≠ "psicografia") (h3 : name ≠ "comportamento") :
    contentCount (showAvatarTab name s) = 0
    ∧ (showAvatarTab name s).demografiaContent = false
    ∧ (showAvatarTab name s).psicografiaContent = false
    ∧ (showAvatarTab name s).comportamentoContent = false := by
  refine ⟨showAvatarTab_unrecognized_clears name s h1 h2 h3, ?_, ?_, ?_⟩
  · rw [demografiaContent_eq]; simp [h1]
  · rw [psicografiaContent_eq]; simp [h2]
  · rw [comportamentoContent_eq]; simp [h3]

/-- C3 witness: at `name := "bogus"` and the state reached by
`selectTab('psicografia')`, the hypotheses hold and the call clears all
content flags. -/
theorem c3_unrecognized_tab_clears_all_witness :
    contentCount (showAvatarTab "bogus" (showAvatarTab "psicografia" initAvatarTabs)) = 0
    ∧ (showAvatarTab "bogus" (showAvatarTab "psicografia" initAvatarTabs)).demografiaContent = false
    ∧ (showAvatarTab "bogus" (showAvatarTab "psicografia" initAvatarTabs)).psicografiaContent = false
    ∧ (showAvatarTab "bogus" (showAvatarTab "psicografia" initAvatarTabs)).comportamentoContent = false :=
  c3_unrecognized_tab_clears_all "bogus" (showAvatarTab "psicografia" initAvatarTabs)
    (by decide) (by decide) (by decide)

/-- C4 counterexample: the state reached from the initial one by the single
call `selectTab('bogus')` is reachable yet has ZERO content blocks flagged
visible, refuting the exactly-one invariant. -/
theorem c4_counterexample :
    ReachableTabState (showAvatarTab "bogus" initAvatarTabs)
    ∧ contentCount (showAvatarTab "bogus" initAvatarTabs) = 0 :=
  ⟨ReachableTabState.step "bogus" ReachableTabState.init, by decide⟩

/-- C4 (amended): in every reachable tab-controller state AT MOST one content
block is flagged visible (exactly one fails: an unrecognized name clears all
three), and selecting the already-active tab — indeed repeating any
`selectTab` call — leaves the state unchanged. -/
theorem c4_at_most_one_active :
    (∀ s, ReachableTabState s → contentCount s ≤ 1)
    ∧ ∀ (name : String) (s : AvatarTabState),
        showAvatarTab name (showAvatarTab name s) = showAvatarTab name s := by
  constructor
  · intro s h
    induction h with
    | init => decide
    | step name _ _ => exact contentCount_le_one name _
  · intro name s; rfl

/-- C4 witness: the initial state is reachable and satisfies the bound, and
re-selecting demografia is a no-op. -/
theorem c4_at_most_one_active_witness :
    contentCount initAvatarTabs ≤ 1
    ∧ showAvatarTab "demografia" (showAvatarTab "demografia" initAvatarTabs)
        = showAvatarTab "demografia" initAvatarTabs :=
  ⟨c4_at_most_one_active.1 initAvatarTabs ReachableTabState.init,
   c4_at_most_one_active.2 "demografia" initAvatarTabs⟩

/-- C10: an empty list field renders exactly like an absent one — the empty
join is falsy, so the same single placeholder fallback fires. Stated for
`escopo.subnichos` and `dores_desejos.obstaculos` with every other field of
the section arbitrary. -/
theorem c10_empty_list_eq_absent :
    (∀ n p v : JsVal,
      generateEscopoSection (JsVal.obj [("nicho_principal", n), ("subnichos", JsVal.arr []),
          ("produto_ideal", p), ("proposta_valor", v)])
        = generateEscopoSection (JsVal.obj [("nicho_principal", n),
          ("produto_ideal", p), ("proposta_valor", v)]))
    ∧ (∀ d ea ed ss : JsVal,
      generateDoresDesejos (JsVal.obj [("principais_dores", d), ("estado_atual", ea),
          ("estado_desejado", ed), ("obstaculos", JsVal.arr []), ("sonho_secreto", ss)])
        = generateDoresDesejos (JsVal.obj [("principais_dores", d), ("estado_atual", ea),
          ("estado_desejado", ed), ("sonho_secreto", ss)])) :=
  ⟨fun _ _ _ => rfl, fun _ _ _ _ => rfl⟩

/-- C9: inside a present section, an absent list field renders as exactly the
single placeholder item `<li>Não especificado</li>` occupying that field's
slot (never an empty collection, never `undefined`), and a present list
renders its items in source order. Shown structurally for `escopo.subnichos`
(the placeholder is the entire slot) and by counting for the avatar's eight
list fields. -/
theorem c9_absent_list_single_placeholder :
    (∀ n p v : JsVal,
      generateEscopoSection (JsVal.obj [("nicho_principal", n),
          ("produto_ideal", p), ("proposta_valor", v)])
        = .ok (escopoBlock (jsToString n) "<li>Não especificado</li>"
            (jsToString p) (jsToString v)))
    ∧ (∀ n p v : JsVal,
      generateEscopoSection (JsVal.obj [("nicho_principal", n),
          ("subnichos", JsVal.arr [JsVal.str "a", JsVal.str "b"]),
          ("produto_ideal", p), ("proposta_valor", v)])
        = .ok (escopoBlock (jsToString n) "<li>a</li><li>b</li>"
            (jsToString p) (jsToString v)))
    ∧ (generateAvatarSection (JsVal.obj [("demografia", JsVal.obj [])])
        = .ok (avatarBlock "Não especificado" "Não especificado" "Não especificado"
            "Não especificado" "Não especificado" "<li>Não especificado</li>"
            "<li>Não especificado</li>" "Não especificado" "<li>Não especificado</li>"
            "<li>Não especificado</li>" "<li>Não especificado</li>" "<li>Não especificado</li>"
            "Não especificado" "<li>Não especificado</li>" "<li>Não especificado</li>"))
    ∧ (generateAvatarSection (JsVal.obj [("demografia",
          JsVal.obj [("profissoes", JsVal.arr [JsVal.str "Dev", JsVal.str "CTO"])])])
        = .ok (avatarBlock "Não especificado" "Não especificado" "Não especificado"
            "Não especificado" "Não especificado" "<li>Dev</li><li>CTO</li>"
            "<li>Não especificado</li>" "Não especificado" "<li>Não especificado</li>"
            "<li>Não especificado</li>" "<li>Não especificado</li>" "<li>Não especificado</li>"
            "Não especificado" "<li>Não especificado</li>" "<li>Não especificado</li>")) :=
  ⟨fun _ _ _ => rfl, fun _ _ _ => rfl, by rfl, by rfl⟩

/-- C2 counterexample: with the `escopo` section present but its
`nicho_principal` absent, the renderer emits the string `undefined` — the
template interpolates `escopo.nicho_principal` with no fallback — refuting
the claim that `undefined` never appears for a missing scalar (the claim
names exactly these fields). -/
theorem c2_counterexample :
    (generateEscopoSection (JsVal.obj [("subnichos", JsVal.arr [JsVal.str "fitness"])])).map
      (fun s => strContains s "undefined") = .ok true := by rfl

/-- C2 (amended): scalar fields that the templates guard with an
`|| 'Não especificado'` fallback do render the placeholder when absent, but
the escopo renderer's `nicho_principal`, `produto_ideal` and `proposta_valor`
and each pain item's `descricao` and `impacto` are interpolated bare, so when
absent the literal `undefined` lands in the fragment. The escopo render with
only `subnichos` present is exactly the template with `undefined` in all
three scalar slots; a pain item carrying only `urgencia` renders two
`undefined`s while the section's four guarded fields show the placeholder. -/
theorem c2_unguarded_scalars_leak_undefined :
    generateEscopoSection (JsVal.obj [("subnichos", JsVal.arr [JsVal.str "x"])])
      = .ok (escopoBlock "undefined" "<li>x</li>" "undefined" "undefined")
    ∧ generateDoresDesejos (JsVal.obj [("principais_dores",
          JsVal.arr [JsVal.obj [("urgencia", JsVal.str "alta")]])])
        = .ok (doresBlock
            ("\n                                <div class=\"dor-item\">\n                                    <h5>Dor "
              ++ "1" ++ ": " ++ "undefined"
              ++ "</h5>\n                                    <p><strong>Impacto:</strong> "
              ++ "undefined"
              ++ "</p>\n                                    <p><strong>Urgência:</strong> <span class=\"urgencia "
              ++ "alta" ++ "\">" ++ "alta"
              ++ "</span></p>\n                                </div>\n                            ")
            "Não especificado" "Não especificado" "<li>Não especificado</li>" "Não especificado") :=
  ⟨by rfl, by rfl⟩

/-- C6 counterexample: a record whose only malformation is a scalar where the
`principais_dores` sequence was expected makes the WHOLE composition fail —
`"oops".map` throws and `generateResultsHTML` has no recovery — refuting the
claim that a malformed section never aborts the whole report. -/
theorem c6_counterexample :
    (generateResultsHTML (JsVal.obj [("dores_desejos",
        JsVal.obj [("principais_dores", JsVal.str "oops")])])).isOk = false := by rfl

/-- C6 (amended): there is no per-section recovery. A scalar in place of a
sequence inside a truthy section throws a TypeError that aborts the entire
report; only a FALSY malformed section value (such as `0` where the mapping
was expected) fails closed, rendering that section as nothing while the rest
of the report is unaffected. -/
theorem c6_malformation_aborts_whole_report :
    generateResultsHTML (JsVal.obj [("dores_desejos",
        JsVal.obj [("principais_dores", JsVal.str "oops")])])
      = .error "TypeError: map is not a function"
    ∧ generateEscopoSection (JsVal.num 0) = .ok ""
    ∧ generateResultsHTML (JsVal.obj [("escopo", JsVal.num 0),
          ("mercado", JsVal.obj [("tam", JsVal.str "R$ 1B")])])
        = generateResultsHTML (JsVal.obj [("mercado", JsVal.obj [("tam", JsVal.str "R$ 1B")])]) :=
  ⟨by rfl, by rfl, by rfl⟩

/-- C1 counterexample: exporting a record with every section absent yields a
document in which no concorrência, palavras-chave or voz-do-mercado section
header (in any casing) occurs at all — the exporter's template only ever
emits seven of the ten §3 sections, refuting the all-ten-headers claim. -/
theorem c1_counterexample :
    (generateComprehensiveReport "01/01/2024, 00:00:00" (JsVal.obj [])).map
      (fun s => (strContains s "CONCOR", strContains s "Concor", strContains s "concor",
                 strContains s "PALAVRAS", strContains s "Palavras",
                 strContains s "VOZ", strContains s "Voz"))
      = .ok (false, false, false, false, false, false, false) := by rfl

/-- C1 (amended): for every record with all ten sections absent (and any
timestamp), the exporter emits exactly the fixed document `exportAllAbsent`:
the seven section headers it supports — escopo, avatar, dores/desejos,
mercado, métricas, projeções, plano de ação — in §3 relative order with every
one of their 38 rendered child fields as `N/A`; the concorrência,
palavras-chave and voz-do-mercado sections are never emitted. -/
theorem c1_export_seven_headers (t : String) :
    generateComprehensiveReport t (JsVal.obj []) = .ok (exportAllAbsent t)
    ∧ (exportAllAbsent "" |> fun s =>
        (strContains s "DEFINIÇÃO DO ESCOPO", strContains s "ANÁLISE DO AVATAR",
         strContains s "DORES E DESEJOS", strContains s "ANÁLISE DE MERCADO",
         strContains s "MÉTRICAS DE PERFORMANCE", strContains s "PROJEÇÕES",
         strContains s "PLANO DE AÇÃO"))
      = (true, true, true, true, true, true, true)
    ∧ strCount (exportAllAbsent "") "N/A" = 38 := by
  refine ⟨rfl, ?_, ?_⟩ <;> rfl

theorem mapJoinStr_str (ss : List String) : (ss.map JsVal.str).map jsJoinStr = ss := by
  induction ss with
  | nil => rfl
  | cons a t ih => simp only [List.map_cons, ih]; rfl

theorem jsJoinArr_strArr (ss : List String) :
    jsJoinArr (JsVal.arr (ss.map JsVal.str)) ", " = strJoinSep ", " ss := by
  show strJoinSep ", " ((ss.map JsVal.str).map jsJoinStr) = strJoinSep ", " ss
  rw [mapJoinStr_str]

/-- C7: the concorrência renderer's shape detection on `forcas`/`fraquezas`
is idempotent — rendering a competitor whose `forcas` is the sequence
`["a","b"]` is literally equal to rendering one whose `forcas` is the
pre-joined string `"a, b"` (whatever the other fields are), the output
carries `a, b`, and in general the array branch's join of a string sequence
is exactly the `', '`-intercalation displayed verbatim in the string
branch. -/
theorem c7_forcas_join_idempotent :
    (∀ nome preco usp fraquezas : JsVal,
      generateConcorrenciaSection (JsVal.obj [("diretos", JsVal.arr [JsVal.obj
          [("nome", nome), ("preco", preco), ("usp", usp),
           ("forcas", JsVal.arr [JsVal.str "a", JsVal.str "b"]), ("fraquezas", fraquezas)]])])
        = generateConcorrenciaSection (JsVal.obj [("diretos", JsVal.arr [JsVal.obj
          [("nome", nome), ("preco", preco), ("usp", usp),
           ("forcas", JsVal.str "a, b"), ("fraquezas", fraquezas)]])]))
    ∧ ((generateConcorrenciaSection (JsVal.obj [("diretos", JsVal.arr [JsVal.obj
          [("forcas", JsVal.arr [JsVal.str "a", JsVal.str "b"])]])])).map
        (fun s => strContains s "Forças:</strong> a, b") = .ok true)
    ∧ (∀ ss : List String, jsJoinArr (JsVal.arr (ss.map JsVal.str)) ", " = strJoinSep ", " ss) :=
  ⟨fun _ _ _ _ => rfl, by rfl, jsJoinArr_strArr⟩

theorem stampOnlyDiff_bind {α : Type} (t₁ t₂ : String) (x : Except String α)
    (f g : α → Except String String) (h : ∀ a, stampOnlyDiff t₁ t₂ (f a) (g a)) :
    stampOnlyDiff t₁ t₂ (x >>= f) (x >>= g) := by
  cases x with
  | error e => exact Or.inl ⟨e, rfl, rfl⟩
  | ok a => exact h a

/-- C8: the Plain-Text Exporter is deterministic modulo the generation line —
for any record, the outputs of two exporter calls either fail identically or
are the SAME document with only the timestamp spliced into the single
`Gerado em:` slot; in particular with equal timestamps the outputs are
byte-identical. -/
theorem c8_export_deterministic (r : JsVal) (t₁ t₂ : String) :
    stampOnlyDiff t₁ t₂ (generateComprehensiveReport t₁ r) (generateComprehensiveReport t₂ r) := by
  unfold generateComprehensiveReport
  refine stampOnlyDiff_bind _ _ _ _ _ fun escopo => ?_
  refine stampOnlyDiff_bind _ _ _ _ _ fun subnichosJ => ?_
  refine stampOnlyDiff_bind _ _ _ _ _ fun avatar => ?_
  refine stampOnlyDiff_bind _ _ _ _ _ fun profissoesJ => ?_
  refine stampOnlyDiff_bind _ _ _ _ _ fun valoresJ => ?_
  refine stampOnlyDiff_bind _ _ _ _ _ fun aspiracoesJ => ?_
  refine stampOnlyDiff_bind _ _ _ _ _ fun medosJ => ?_
  refine stampOnlyDiff_bind _ _ _ _ _ fun frustracoesJ => ?_
  refine stampOnlyDiff_bind _ _ _ _ _ fun plataformasJ => ?_
  refine stampOnlyDiff_bind _ _ _ _ _ fun conteudoJ => ?_
  refine stampOnlyDiff_bind _ _ _ _ _ fun dores => ?_
  refine stampOnlyDiff_bind _ _ _ _ _ fun mercado => ?_
  refine stampOnlyDiff_bind _ _ _ _ _ fun metricas => ?_
  refine stampOnlyDiff_bind _ _ _ _ _ fun projecoes => ?_
  refine stampOnlyDiff_bind _ _ _ _ _ fun planoAcao => ?_
  refine stampOnlyDiff_bind _ _ _ _ _ fun planoJ => ?_
  exact Or.inr ⟨_, rfl, rfl⟩

theorem isOk_bind {α β : Type} {x : Except String α} {f : α → Except String β}
    (hx : x.isOk = true) (hf : ∀ a, x = .ok a → (f a).isOk = true) :
    (x >>= f).isOk = true := by
  cases x with
  | error e => exact Bool.noConfusion hx
  | ok a => exact hf a rfl

theorem getPropStrict_obj (fs : List (String × JsVal)) (k : String) :
    getPropStrict (JsVal.obj fs) k = .ok (propLookup fs k) := rfl

theorem mapME_isOk (p : JsVal → Bool) {f : JsVal → Except String String}
    (hf : ∀ x, p x = true → (f x).isOk = true) :
    ∀ {xs : List JsVal}, xs.all p = true → (mapME xs f).isOk = true := by
  intro xs
  induction xs with
  | nil => intro _; rfl
  | cons a t ih =>
      intro hall
      rw [List.all_cons, Bool.and_eq_true] at hall
      refine isOk_bind (hf a hall.1) fun s _ => ?_
      refine isOk_bind (ih hall.2) fun r _ => rfl

theorem mapMEIdx_isOk (p : JsVal → Bool) {f : JsVal → Nat → Except String String}
    (hf : ∀ x i, p x = true → (f x i).isOk = true) :
    ∀ {xs : List JsVal} (i : Nat), xs.all p = true → (mapMEIdx xs i f).isOk = true := by
  intro xs
  induction xs with
  | nil => intro _ _; rfl
  | cons a t ih =>
      intro i hall
      rw [List.all_cons, Bool.and_eq_true] at hall
      refine isOk_bind (hf a i hall.1) fun s _ => ?_
      refine isOk_bind (ih (i + 1) hall.2) fun r _ => rfl

theorem mapMEPairs_isOk (p : JsVal → Bool) {f : String → JsVal → Except String String}
    (hf : ∀ k v, p v = true → (f k v).isOk = true) :
    ∀ {l : List (String × JsVal)}, (l.all fun q => p q.2) = true →
      (mapMEPairs l f).isOk = true := by
  intro l
  induction l with
  | nil => intro _; rfl
  | cons a t ih =>
      obtain ⟨k, v⟩ := a
      intro hall
      rw [List.all_cons, Bool.and_eq_true] at hall
      refine isOk_bind (hf k v hall.1) fun s _ => ?_
      refine isOk_bind (ih hall.2) fun r _ => rfl

theorem jsMapJoinOpt_isOk (p : JsVal → Bool) {v : JsVal} {sep : String}
    {f : JsVal → Except String String}
    (hv : isArrOf p v = true) (hf : ∀ x, p x = true → (f x).isOk = true) :
    (jsMapJoinOpt v sep f).isOk = true := by
  cases v with
  | undefined => rfl
  | null => rfl
  | arr xs => exact isOk_bind (mapME_isOk p hf hv) fun _ _ => rfl
  | str s => exact Bool.noConfusion hv
  | num n => exact Bool.noConfusion hv
  | obj fs => exact Bool.noConfusion hv

theorem jsMapIdxJoinOpt_isOk (p : JsVal → Bool) {v : JsVal} {sep : String}
    {f : JsVal → Nat → Except String String}
    (hv : isArrOf p v = true) (hf : ∀ x i, p x = true → (f x i).isOk = true) :
    (jsMapIdxJoinOpt v sep f).isOk = true := by
  cases v with
  | undefined => rfl
  | null => rfl
  | arr xs => exact isOk_bind (mapMEIdx_isOk p hf 0 hv) fun _ _ => rfl
  | str s => exact Bool.noConfusion hv
  | num n => exact Bool.noConfusion hv
  | obj fs => exact Bool.noConfusion hv

theorem jsJoinOpt_isOk (p : JsVal → Bool) {v : JsVal} {sep : String}
    (hv : isArrOf p v = true) : (jsJoinOpt v sep).isOk = true := by
  cases v <;> first | rfl | exact Bool.noConfusion hv

theorem jsToLowerOpt_isOk {v : JsVal} (h : isStrOpt v = true) :
    (jsToLowerOpt v).isOk = true := by
  cases v <;> first | rfl | exact Bool.noConfusion h

theorem wtDemografia_profissoes {v : JsVal} (h : wtDemografia v = true) :
    isStrArrOpt (getPropOpt v "profissoes") = true := by
  cases v <;> first
    | rfl
    | exact Bool.noConfusion h
    | (simp only [wtDemografia, Bool.and_eq_true] at h; exact h.2)

theorem wtPsicografia_valores {v : JsVal} (h : wtPsicografia v = true) :
    isStrArrOpt (getPropOpt v "valores") = true := by
  cases v <;> first
    | rfl
    | exact Bool.noConfusion h
    | (simp only [wtPsicografia, Bool.and_eq_true] at h; exact h.1.1.1.1)

theorem wtPsicografia_aspiracoes {v : JsVal} (h : wtPsicografia v = true) :
    isStrArrOpt (getPropOpt v "aspiracoes") = true := by
  cases v <;> first
    | rfl
    | exact Bool.noConfusion h
    | (simp only [wtPsicografia, Bool.and_eq_true] at h; exact h.1.1.1.2)

theorem wtPsicografia_medos {v : JsVal} (h : wtPsicografia v = true) :
    isStrArrOpt (getPropOpt v "medos") = true := by
  cases v <;> first
    | rfl
    | exact Bool.noConfusion h
    | (simp only [wtPsicografia, Bool.and_eq_true] at h; exact h.1.1.2)

theorem wtPsicografia_frustracoes {v : JsVal} (h : wtPsicografia v = true) :
    isStrArrOpt (getPropOpt v "frustracoes") = true := by
  cases v <;> first
    | rfl
    | exact Bool.noConfusion h
    | (simp only [wtPsicografia, Bool.and_eq_true] at h; exact h.1.2)

theorem wtComportamento_plataformas {v : JsVal} (h : wtComportamento v = true) :
    isStrArrOpt (getPropOpt v "plataformas") = true := by
  cases v <;> first
    | rfl
    | exact Bool.noConfusion h
    | (simp only [wtComportamento, Bool.and_eq_true] at h; exact h.1.1.1)

theorem wtComportamento_conteudo {v : JsVal} (h : wtComportamento v = true) :
    isStrArrOpt (getPropOpt v "conteudo_preferido") = true := by
  cases v <;> first
    | rfl
    | exact Bool.noConfusion h
    | (simp only [wtComportamento, Bool.and_eq_true] at h; exact h.1.1.2)

theorem wtComportamento_influenciadores {v : JsVal} (h : wtComportamento v = true) :
    isStrArrOpt (getPropOpt v "influenciadores") = true := by
  cases v <;> first
    | rfl
    | exact Bool.noConfusion h
    | (simp only [wtComportamento, Bool.and_eq_true] at h; exact h.1.2)

theorem wtSazonalidade_melhores {v : JsVal} (h : wtSazonalidade v = true) :
    isStrArrOpt (getPropOpt v "melhores_meses") = true := by
  cases v <;> first
    | rfl
    | exact Bool.noConfusion h
    | (simp only [wtSazonalidade, Bool.and_eq_true] at h; exact h.1)

theorem wtSazonalidade_piores {v : JsVal} (h : wtSazonalidade v = true) :
    isStrArrOpt (getPropOpt v "piores_meses") = true := by
  cases v <;> first
    | rfl
    | exact Bool.noConfusion h
    | (simp only [wtSazonalidade, Bool.and_eq_true] at h; exact h.2)

theorem wtLinguagem_termos {v : JsVal} (h : wtLinguagem v = true) :
    isStrArrOpt (getPropOpt v "termos") = true := by
  cases v <;> first
    | rfl
    | exact Bool.noConfusion h
    | (simp only [wtLinguagem, Bool.and_eq_true] at h; exact h.1.1)

theorem wtLinguagem_girias {v : JsVal} (h : wtLinguagem v = true) :
    isStrArrOpt (getPropOpt v "girias") = true := by
  cases v <;> first
    | rfl
    | exact Bool.noConfusion h
    | (simp only [wtLinguagem, Bool.and_eq_true] at h; exact h.1.2)

theorem wtLinguagem_gatilhos {v : JsVal} (h : wtLinguagem v = true) :
    isStrArrOpt (getPropOpt v "gatilhos") = true := by
  cases v <;> first
    | rfl
    | exact Bool.noConfusion h
    | (simp only [wtLinguagem, Bool.and_eq_true] at h; exact h.2)

theorem generateEscopoSection_isOk {v : JsVal} (h : wtEscopo v = true) :
    (generateEscopoSection v).isOk = true := by
  cases v with
  | undefined => rfl
  | null => exact Bool.noConfusion h
  | str s => exact Bool.noConfusion h
  | num n => exact Bool.noConfusion h
  | arr xs => exact Bool.noConfusion h
  | obj fs =>
      simp only [wtEscopo, Bool.and_eq_true] at h
      exact isOk_bind (jsMapJoinOpt_isOk isStr h.1.1.2 fun _ _ => rfl) fun _ _ => rfl

theorem generateAvatarSection_isOk {v : JsVal} (h : wtAvatar v = true) :
    (generateAvatarSection v).isOk = true := by
  cases v with
  | undefined => rfl
  | null => exact Bool.noConfusion h
  | str s => exact Bool.noConfusion h
  | num n => exact Bool.noConfusion h
  | arr xs => exact Bool.noConfusion h
  | obj fs =>
      simp only [wtAvatar, Bool.and_eq_true] at h
      obtain ⟨⟨hd, hp⟩, hc⟩ := h
      refine isOk_bind (jsMapJoinOpt_isOk isStr (wtDemografia_profissoes hd) fun _ _ => rfl)
        fun _ _ => ?_
      refine isOk_bind (jsMapJoinOpt_isOk isStr (wtPsicografia_valores hp) fun _ _ => rfl)
        fun _ _ => ?_
      refine isOk_bind (jsMapJoinOpt_isOk isStr (wtPsicografia_aspiracoes hp) fun _ _ => rfl)
        fun _ _ => ?_
      refine isOk_bind (jsMapJoinOpt_isOk isStr (wtPsicografia_medos hp) fun _ _ => rfl)
        fun _ _ => ?_
      refine isOk_bind (jsMapJoinOpt_isOk isStr (wtPsicografia_frustracoes hp) fun _ _ => rfl)
        fun _ _ => ?_
      refine isOk_bind (jsMapJoinOpt_isOk isStr (wtComportamento_plataformas hc) fun _ _ => rfl)
        fun _ _ => ?_
      refine isOk_bind (jsMapJoinOpt_isOk isStr (wtComportamento_conteudo hc) fun _ _ => rfl)
        fun _ _ => ?_
      exact isOk_bind (jsMapJoinOpt_isOk isStr (wtComportamento_influenciadores hc) fun _ _ => rfl)
        fun _ _ => rfl

theorem generateDoresDesejos_isOk {v : JsVal} (h : wtDores v = true) :
    (generateDoresDesejos v).isOk = true := by
  cases v with
  | undefined => rfl
  | null => exact Bool.noConfusion h
  | str s => exact Bool.noConfusion h
  | num n => exact Bool.noConfusion h
  | arr xs => exact Bool.noConfusion h
  | obj fs =>
      simp only [wtDores, Bool.and_eq_true] at h
      obtain ⟨⟨⟨⟨hpd, _⟩, _⟩, _⟩, hob⟩ := h
      refine isOk_bind (jsMapIdxJoinOpt_isOk wtPainItem hpd ?_) fun _ _ => ?_
      · intro x i hx
        cases x with
        | undefined => exact Bool.noConfusion hx
        | null => exact Bool.noConfusion hx
        | str s => exact Bool.noConfusion hx
        | num n => exact Bool.noConfusion hx
        | arr ys => exact Bool.noConfusion hx
        | obj dfs =>
            simp only [wtPainItem, Bool.and_eq_true] at hx
            refine isOk_bind rfl fun d _ => ?_
            refine isOk_bind rfl fun im _ => ?_
            refine isOk_bind rfl fun u hu => ?_
            rw [getPropStrict_obj] at hu
            injection hu with hu
            refine isOk_bind (jsToLowerOpt_isOk ?_) fun _ _ => rfl
            rw [← hu]; exact hx.2
      · exact isOk_bind (jsMapJoinOpt_isOk isStr hob fun _ _ => rfl) fun _ _ => rfl

theorem generateConcorrenciaSection_isOk {v : JsVal} (h : wtConcorrencia v = true) :
    (generateConcorrenciaSection v).isOk = true := by
  cases v with
  | undefined => rfl
  | null => exact Bool.noConfusion h
  | str s => exact Bool.noConfusion h
  | num n => exact Bool.noConfusion h
  | arr xs => exact Bool.noConfusion h
  | obj fs =>
      simp only [wtConcorrencia, Bool.and_eq_true] at h
      obtain ⟨⟨hdir, hind⟩, hgaps⟩ := h
      refine isOk_bind (jsMapJoinOpt_isOk wtDireto hdir ?_) fun _ _ => ?_
      · intro x hx
        cases x with
        | undefined => exact Bool.noConfusion hx
        | null => exact Bool.noConfusion hx
        | str s => exact Bool.noConfusion hx
        | num n => exact Bool.noConfusion hx
        | arr ys => exact Bool.noConfusion hx
        | obj c =>
            refine isOk_bind rfl fun _ _ => ?_
            refine isOk_bind rfl fun _ _ => ?_
            refine isOk_bind rfl fun _ _ => ?_
            refine isOk_bind rfl fun _ _ => ?_
            exact isOk_bind rfl fun _ _ => rfl
      · refine isOk_bind (jsMapJoinOpt_isOk wtIndireto hind ?_) fun _ _ => ?_
        · intro x hx
          cases x with
          | undefined => exact Bool.noConfusion hx
          | null => exact Bool.noConfusion hx
          | str s => exact Bool.noConfusion hx
          | num n => exact Bool.noConfusion hx
          | arr ys => exact Bool.noConfusion hx
          | obj c =>
              refine isOk_bind rfl fun _ _ => ?_
              exact isOk_bind rfl fun _ _ => rfl
        · exact isOk_bind (jsMapJoinOpt_isOk isStr hgaps fun _ _ => rfl) fun _ _ => rfl

theorem generateMercadoSection_isOk {v : JsVal} (h : wtMercado v = true) :
    (generateMercadoSection v).isOk = true := by
  cases v with
  | undefined => rfl
  | null => exact Bool.noConfusion h
  | str s => exact Bool.noConfusion h
  | num n => exact Bool.noConfusion h
  | arr xs => exact Bool.noConfusion h
  | obj fs =>
      simp only [wtMercado, Bool.and_eq_true] at h
      obtain ⟨⟨⟨⟨⟨⟨_, _⟩, _⟩, _⟩, ha⟩, hb⟩, hz⟩ := h
      refine isOk_bind (jsMapJoinOpt_isOk isStr ha fun _ _ => rfl) fun _ _ => ?_
      refine isOk_bind (jsMapJoinOpt_isOk isStr hb fun _ _ => rfl) fun _ _ => ?_
      refine isOk_bind (jsJoinOpt_isOk isStr (wtSazonalidade_melhores hz)) fun _ _ => ?_
      exact isOk_bind (jsJoinOpt_isOk isStr (wtSazonalidade_piores hz)) fun _ _ => rfl

theorem generatePalavrasChaveSection_isOk {v : JsVal} (h : wtPalavras v = true) :
    (generatePalavrasChaveSection v).isOk = true := by
  cases v with
  | undefined => rfl
  | null => exact Bool.noConfusion h
  | str s => exact Bool.noConfusion h
  | num n => exact Bool.noConfusion h
  | arr xs => exact Bool.noConfusion h
  | obj fs =>
      simp only [wtPalavras, Bool.and_eq_true] at h
      obtain ⟨hp, hcm⟩ := h
      have hc : ((jsEntries (jsOr (propLookup fs "custos_plataforma") (JsVal.obj []))).all
          fun q => wtCusto q.2) = true := by
        cases hcv : propLookup fs "custos_plataforma" with
        | undefined => rfl
        | null => rw [hcv] at hcm; exact Bool.noConfusion hcm
        | str s => rw [hcv] at hcm; exact Bool.noConfusion hcm
        | num n => rw [hcv] at hcm; exact Bool.noConfusion hcm
        | arr ys => rw [hcv] at hcm; exact Bool.noConfusion hcm
        | obj costs => rw [hcv] at hcm; exact hcm
      refine isOk_bind (jsMapJoinOpt_isOk wtKeyword hp ?_) fun _ _ => ?_
      · intro x hx
        cases x with
        | undefined => exact Bool.noConfusion hx
        | null => exact Bool.noConfusion hx
        | str s => exact Bool.noConfusion hx
        | num n => exact Bool.noConfusion hx
        | arr ys => exact Bool.noConfusion hx
        | obj c =>
            refine isOk_bind rfl fun _ _ => ?_
            refine isOk_bind rfl fun _ _ => ?_
            refine isOk_bind rfl fun _ _ => ?_
            refine isOk_bind rfl fun _ _ => ?_
            exact isOk_bind rfl fun _ _ => rfl
      · refine isOk_bind (mapMEPairs_isOk wtCusto ?_ hc) fun _ _ => rfl
        intro k cv hcv
        cases cv with
        | undefined => exact Bool.noConfusion hcv
        | null => exact Bool.noConfusion hcv
        | str s => exact Bool.noConfusion hcv
        | num n => exact Bool.noConfusion hcv
        | arr ys => exact Bool.noConfusion hcv
        | obj c =>
            refine isOk_bind rfl fun _ _ => ?_
            refine isOk_bind rfl fun _ _ => ?_
            refine isOk_bind rfl fun _ _ => ?_
            exact isOk_bind rfl fun _ _ => rfl

theorem generateMetricasSection_isOk {v : JsVal} (h : wtMetricas v = true) :
    (generateMetricasSection v).isOk = true := by
  cases v with
  | undefined => rfl
  | null => exact Bool.noConfusion h
  | str s => exact Bool.noConfusion h
  | num n => exact Bool.noConfusion h
  | arr xs => exact Bool.noConfusion h
  | obj fs =>
      simp only [wtMetricas, Bool.and_eq_true] at h
      obtain ⟨⟨⟨⟨_, _⟩, _⟩, hfu⟩, hroim⟩ := h
      have hroi : ((jsEntries (jsOr (propLookup fs "roi_canais") (JsVal.obj []))).all
          fun q => isStr q.2) = true := by
        cases hcv : propLookup fs "roi_canais" with
        | undefined => rfl
        | null => rw [hcv] at hroim; exact Bool.noConfusion hroim
        | str s => rw [hcv] at hroim; exact Bool.noConfusion hroim
        | num n => rw [hcv] at hroim; exact Bool.noConfusion hroim
        | arr ys => rw [hcv] at hroim; exact Bool.noConfusion hroim
        | obj rois => rw [hcv] at hroim; exact hroim
      refine isOk_bind (jsMapIdxJoinOpt_isOk isStr hfu fun _ _ _ => rfl) fun _ _ => ?_
      refine isOk_bind (mapMEPairs_isOk isStr ?_ hroi) fun _ _ => rfl
      exact fun _ _ _ => rfl

theorem generateVozMercadoSection_isOk {v : JsVal} (h : wtVoz v = true) :
    (generateVozMercadoSection v).isOk = true := by
  cases v with
  | undefined => rfl
  | null => exact Bool.noConfusion h
  | str s => exact Bool.noConfusion h
  | num n => exact Bool.noConfusion h
  | arr xs => exact Bool.noConfusion h
  | obj fs =>
      simp only [wtVoz, Bool.and_eq_true] at h
      obtain ⟨⟨hob, hlin⟩, hcr⟩ := h
      refine isOk_bind (jsMapIdxJoinOpt_isOk wtObjecao hob ?_) fun _ _ => ?_
      · intro x i hx
        cases x with
        | undefined => exact Bool.noConfusion hx
        | null => exact Bool.noConfusion hx
        | str s => exact Bool.noConfusion hx
        | num n => exact Bool.noConfusion hx
        | arr ys => exact Bool.noConfusion hx
        | obj c =>
            refine isOk_bind rfl fun _ _ => ?_
            exact isOk_bind rfl fun _ _ => rfl
      · refine isOk_bind (jsMapJoinOpt_isOk isStr (wtLinguagem_termos hlin) fun _ _ => rfl)
          fun _ _ => ?_
        refine isOk_bind (jsMapJoinOpt_isOk isStr (wtLinguagem_girias hlin) fun _ _ => rfl)
          fun _ _ => ?_
        refine isOk_bind (jsMapJoinOpt_isOk isStr (wtLinguagem_gatilhos hlin) fun _ _ => rfl)
          fun _ _ => ?_
        exact isOk_bind (jsMapJoinOpt_isOk isStr hcr fun _ _ => rfl) fun _ _ => rfl

theorem generateProjecoesSection_isOk {v : JsVal} (h : wtProjecoes v = true) :
    (generateProjecoesSection v).isOk = true := by
  cases v with
  | undefined => rfl
  | null => exact Bool.noConfusion h
  | str s => exact Bool.noConfusion h
  | num n => exact Bool.noConfusion h
  | arr xs => exact Bool.noConfusion h
  | obj fs => rfl

theorem generatePlanoAcaoSection_isOk {v : JsVal} (h : wtPlano v = true) :
    (generatePlanoAcaoSection v).isOk = true := by
  cases v with
  | undefined => rfl
  | null => exact Bool.noConfusion h
  | str s => exact Bool.noConfusion h
  | num n => exact Bool.noConfusion h
  | obj fs => exact Bool.noConfusion h
  | arr xs =>
      refine isOk_bind (jsMapJoinOpt_isOk wtPlanoItem h ?_) fun _ _ => rfl
      intro x hx
      cases x with
      | undefined => exact Bool.noConfusion hx
      | null => exact Bool.noConfusion hx
      | str s => exact Bool.noConfusion hx
      | num n => exact Bool.noConfusion hx
      | arr ys => exact Bool.noConfusion hx
      | obj c =>
          refine isOk_bind rfl fun _ _ => ?_
          refine isOk_bind rfl fun _ _ => ?_
          exact isOk_bind rfl fun _ _ => rfl

theorem generateResultsHTML_isOk {r : JsVal} (h : WellTyped r = true) :
    (generateResultsHTML r).isOk = true := by
  cases r with
  | undefined => exact Bool.noConfusion h
  | null => exact Bool.noConfusion h
  | str s => exact Bool.noConfusion h
  | num n => exact Bool.noConfusion h
  | arr xs => exact Bool.noConfusion h
  | obj fs =>
      simp only [WellTyped, Bool.and_eq_true] at h
      obtain ⟨⟨⟨⟨⟨⟨⟨⟨⟨h1, h2⟩, h3⟩, h4⟩, h5⟩, h6⟩, h7⟩, h8⟩, h9⟩, h10⟩ := h
      refine isOk_bind rfl fun e he => ?_
      rw [getPropStrict_obj] at he; injection he with he; subst he
      refine isOk_bind (generateEscopoSection_isOk h1) fun _ _ => ?_
      refine isOk_bind rfl fun a ha => ?_
      rw [getPropStrict_obj] at ha; injection ha with ha; subst ha
      refine isOk_bind (generateAvatarSection_isOk h2) fun _ _ => ?_
      refine isOk_bind rfl fun d hd => ?_
      rw [getPropStrict_obj] at hd; injection hd with hd; subst hd
      refine isOk_bind (generateDoresDesejos_isOk h3) fun _ _ => ?_
      refine isOk_bind rfl fun c hc => ?_
      rw [getPropStrict_obj] at hc; injection hc with hc; subst hc
      refine isOk_bind (generateConcorrenciaSection_isOk h4) fun _ _ => ?_
      refine isOk_bind rfl fun m hm => ?_
      rw [getPropStrict_obj] at hm; injection hm with hm; subst hm
      refine isOk_bind (generateMercadoSection_isOk h5) fun _ _ => ?_
      refine isOk_bind rfl fun p hp => ?_
      rw [getPropStrict_obj] at hp; injection hp with hp; subst hp
      refine isOk_bind (generatePalavrasChaveSection_isOk h6) fun _ _ => ?_
      refine isOk_bind rfl fun mt hmt => ?_
      rw [getPropStrict_obj] at hmt; injection hmt with hmt; subst hmt
      refine isOk_bind (generateMetricasSection_isOk h7) fun _ _ => ?_
      refine isOk_bind rfl fun vz hvz => ?_
      rw [getPropStrict_obj] at hvz; injection hvz with hvz; subst hvz
      refine isOk_bind (generateVozMercadoSection_isOk h8) fun _ _ => ?_
      refine isOk_bind rfl fun pj hpj => ?_
      rw [getPropStrict_obj] at hpj; injection hpj with hpj; subst hpj
      refine isOk_bind (generateProjecoesSection_isOk h9) fun _ _ => ?_
      refine isOk_bind rfl fun pl hpl => ?_
      rw [getPropStrict_obj] at hpl; injection hpl with hpl; subst hpl
      exact isOk_bind (generatePlanoAcaoSection_isOk h10) fun _ _ => rfl

/-- C5: on every §3-shaped AnalysisRecord the composer never raises, and a
renderer whose section is absent contributes the empty fragment — no header,
no placeholder, nothing — so the composed report simply omits that section's
block. -/
theorem c5_absent_section_contributes_nothing :
    (∀ r : JsVal, WellTyped r = true → (generateResultsHTML r).isOk = true)
    ∧ generateEscopoSection .undefined = .ok ""
    ∧ generateAvatarSection .undefined = .ok ""
    ∧ generateDoresDesejos .undefined = .ok ""
    ∧ generateConcorrenciaSection .undefined = .ok ""
    ∧ generateMercadoSection .undefined = .ok ""
    ∧ generatePalavrasChaveSection .undefined = .ok ""
    ∧ generateMetricasSection .undefined = .ok ""
    ∧ generateVozMercadoSection .undefined = .ok ""
    ∧ generateProjecoesSection .undefined = .ok ""
    ∧ generatePlanoAcaoSection .undefined = .ok "" :=
  ⟨fun _ h => generateResultsHTML_isOk h, rfl, rfl, rfl, rfl, rfl, rfl, rfl, rfl, rfl, rfl⟩

/-- C5 witness: a concrete well-typed record carrying only an escopo section
composes without raising. -/
theorem c5_absent_section_contributes_nothing_witness :
    WellTyped (JsVal.obj [("escopo", JsVal.obj [("nicho_principal", JsVal.str "Fitness"),
        ("subnichos", JsVal.arr [JsVal.str "yoga"])])]) = true
    ∧ (generateResultsHTML (JsVal.obj [("escopo", JsVal.obj
        [("nicho_principal", JsVal.str "Fitness"),
         ("subnichos", JsVal.arr [JsVal.str "yoga"])])])).isOk = true :=
  ⟨rfl, c5_absent_section_contributes_nothing.1 _ rfl⟩

end ARQV2
